import Mathlib

/-!
# BlueLib: the completion bridge of `callback.c` and `conn_state.c`

A shallow embedding of the synchronous facade of BlueLib: the connection-state
register (`conn_state.c`), the event-loop lifecycle, the blocking wait
`wait_for_cb` and the result callbacks (`callback.c`, `callback.h`).

Conventions of the embedding.
* C `int` values are `Int`, `guint8`/`uint16_t` values are `Nat`.
* A pointer that may be `NULL` is an `Option`; a `GSList *` is a `List`, the
  empty list being the `NULL` pointer.
* The globals `event_loop`, `event_thread` and `conn_state` are the fields of
  `World`; calls into GLib that have no effect on these variables (sleeping,
  `g_main_loop_quit`, `g_thread_try_new`, `g_mutex_init`) are appended to
  `World.log` in program order.
* `cb_ctx->gerr` is taken to point to an error slot (`wait_for_cb` dereferences
  it unconditionally); `cb_ctx_t.gerr` is the content `*cb_ctx->gerr` of that slot.
* What the other threads do is an input: `Env` for `wait_for_cb`, the function
  `env` for `start_event_loop`.
-/

namespace BlueLib

/-! ## Declarations taken from headers that are not part of the sources -/

/-- Modelled from the spec: `conn_state.h` is absent; the spec gives the register the
three values Disconnected, Connecting, Connected, which the sources name
`STATE_DISCONNECTED`, `STATE_CONNECTING`, `STATE_CONNECTED`. -/
inductive conn_state_t where
  | STATE_DISCONNECTED
  | STATE_CONNECTING
  | STATE_CONNECTED
  deriving DecidableEq, Repr

/-- Modelled from the spec: the constants of `bluelib.h` and `gatt_def.h`, both absent.
The result codes are C `int` constants whose values the sources do not show: they are
parameters of the model. The spec lists them as the distinct error kinds
NoCallbackError, DisconnectedError, RequestFailedError, ProtocolError, AllocationError,
SendRequestError, next to success; `codes_nodup` records that they are pairwise
different. The four strings are the UUIDs of the GATT declarations. -/
structure bl_consts where
  BL_ERROR_DOMAIN : Nat
  BL_NO_ERROR : Int
  BL_NO_CALLBACK_ERROR : Int
  BL_DISCONNECTED_ERROR : Int
  BL_REQUEST_FAIL_ERROR : Int
  BL_PROTOCOL_ERROR : Int
  BL_MALLOC_ERROR : Int
  BL_SEND_REQUEST_ERROR : Int
  GATT_PRIM_SVC_UUID_STR : String
  GATT_SND_SVC_UUID_STR : String
  GATT_INCLUDE_UUID_STR : String
  GATT_CHARAC_UUID_STR : String
  codes_nodup : [BL_NO_ERROR, BL_NO_CALLBACK_ERROR, BL_DISCONNECTED_ERROR,
    BL_REQUEST_FAIL_ERROR, BL_PROTOCOL_ERROR, BL_MALLOC_ERROR,
    BL_SEND_REQUEST_ERROR].Nodup

/-- One admissible table of constants, used where a concrete input is evaluated. The
numbers are placeholders: no theorem depends on them beyond their being distinct. -/
def sample_consts : bl_consts where
  BL_ERROR_DOMAIN := 1
  BL_NO_ERROR := 0
  BL_NO_CALLBACK_ERROR := 1
  BL_DISCONNECTED_ERROR := 2
  BL_REQUEST_FAIL_ERROR := 3
  BL_PROTOCOL_ERROR := 4
  BL_MALLOC_ERROR := 5
  BL_SEND_REQUEST_ERROR := 6
  GATT_PRIM_SVC_UUID_STR := "00002800-0000-1000-8000-00805f9b34fb"
  GATT_SND_SVC_UUID_STR := "00002801-0000-1000-8000-00805f9b34fb"
  GATT_INCLUDE_UUID_STR := "00002802-0000-1000-8000-00805f9b34fb"
  GATT_CHARAC_UUID_STR := "00002803-0000-1000-8000-00805f9b34fb"
  codes_nodup := by decide

/-! ## GLib objects -/

/-- A `GThread *` that is not `NULL`: the identity of a thread. -/
abbrev GThread := Nat

/-- A `GMainLoop *` that is not `NULL`: the identity of a loop object. -/
abbrev GMainLoop := Nat

/-- A `GError`: domain, code and message. -/
structure GError where
  domain : Nat
  code : Int
  message : String
  deriving DecidableEq, Repr

/-- The GLib constructor `g_error_new (domain, code, message)`. -/
def g_error_new (domain : Nat) (code : Int) (message : String) : GError :=
  ⟨domain, code, message⟩

/-- The GLib call `g_propagate_error (dest, src)` on an existing slot `dest`: an empty
slot receives `src`, a slot that already holds an error keeps it and `src` is dropped. -/
def g_propagate_error (dest : Option GError) (src : GError) : Option GError :=
  match dest with
  | none => some src
  | some old => some old

/-- A `GMutex`. `locked` is its state; `unlocks` counts the `g_mutex_unlock` calls made
on it, so that releases can be counted. -/
structure GMutex where
  locked : Bool
  unlocks : Nat
  deriving DecidableEq, Repr

/-- The GLib call `g_mutex_lock`. -/
def g_mutex_lock (m : GMutex) : GMutex :=
  { m with locked := true }

/-- The GLib call `g_mutex_unlock`. -/
def g_mutex_unlock (m : GMutex) : GMutex :=
  { m with locked := false, unlocks := m.unlocks + 1 }

/-- The GLib call `g_mutex_trylock`: `true` and the mutex taken when it was free,
`false` and no change when it was held. -/
def g_mutex_trylock (m : GMutex) : Bool × GMutex :=
  if m.locked then (false, m) else (true, { m with locked := true })

/-- The calls into GLib and libc that leave the globals of the program alone. -/
inductive Event where
  | usleep (usec : Nat)
  | sleep (sec : Nat)
  | g_mutex_init
  | g_thread_try_new
  | g_main_loop_quit (loop : GMainLoop)
  deriving DecidableEq, Repr

/-! ## Global state: `callback.c` lines 41-45, `conn_state.c` line 29 -/

/-- The two handles `event_loop` and `event_thread` of `callback.c`. -/
structure Dispatcher where
  event_loop : Option GMainLoop
  event_thread : Option GThread
  deriving DecidableEq, Repr

/-- The process-wide state: the dispatcher handles, `conn_state`, and the log. -/
structure World where
  disp : Dispatcher
  conn_state : conn_state_t
  log : List Event
  deriving DecidableEq, Repr

/-- The macro `CB_TIMEOUT_S` of `callback.c`, line 50. -/
def CB_TIMEOUT_S : Nat := 120

/-- Appends one external call to the log. -/
def World.emit (w : World) (e : Event) : World :=
  { w with log := w.log ++ [e] }

/-- The function `is_event_loop_running` (`callback.c`, lines 146-152), on the handles
it reads. -/
def is_event_loop_running (d : Dispatcher) : Bool :=
  d.event_thread.isSome && d.event_loop.isSome

/-- The function `stop_event_loop` (`callback.c`, lines 138-144). -/
def stop_event_loop (w : World) : World :=
  match w.disp.event_loop with
  | some loop => w.emit (Event.g_main_loop_quit loop)
  | none => w

/-- The function `set_conn_state` (`conn_state.c`, lines 31-37). -/
def set_conn_state (state : conn_state_t) (w : World) : World :=
  let w1 := { w with conn_state := state }
  if state = conn_state_t.STATE_DISCONNECTED ∧ is_event_loop_running w1.disp = true then
    stop_event_loop w1
  else
    w1

/-- The function `get_conn_state` (`conn_state.c`, lines 39-42). -/
def get_conn_state (w : World) : conn_state_t :=
  w.conn_state

/-- The loop of `start_event_loop` (lines 123-129), entered with the counter `cnt`.
`env cnt` is what the other threads do to the globals during the `sleep(1)` of the
round `cnt`. -/
def start_event_loop_wait (env : Nat → World → World) (cnt : Nat) (w : World) : World :=
  if !is_event_loop_running w.disp ∧ cnt < 60 ∧ w.disp.event_thread.isSome ∧
      get_conn_state w = conn_state_t.STATE_CONNECTING then
    start_event_loop_wait env (cnt + 1) (env cnt (w.emit (Event.sleep 1)))
  else
    w
termination_by 60 - cnt
decreasing_by omega

/-- The function `start_event_loop` (`callback.c`, lines 117-136). `spawn` is what
`g_thread_try_new` returns (`none` for `NULL`). -/
def start_event_loop (K : bl_consts) (spawn : Option GThread) (env : Nat → World → World)
    (w : World) : Int × World :=
  let w1 := w.emit Event.g_mutex_init
  let w2 := { w1.emit Event.g_thread_try_new with
    disp := { w1.disp with event_thread := spawn } }
  let w3 := start_event_loop_wait env 0 w2
  if w3.disp.event_thread.isNone then
    (K.BL_DISCONNECTED_ERROR, w3)
  else
    (K.BL_NO_ERROR, w3)

/-! ## Payloads and the completion context (`callback.h`) -/

/-- Modelled from the spec: `bl_primary_t` of `bluelib.h` (absent), taken to be the
record of the arguments given to `bl_primary_new (uuid_str, changed, start, end)`. -/
structure bl_primary_t where
  uuid_str : Option String
  changed : Nat
  start_handle : Nat
  end_handle : Nat
  deriving DecidableEq, Repr

/-- Modelled from the spec: `bl_included_t` of `bluelib.h` (absent), taken to be the
record of the arguments given to `bl_included_new (uuid_str, handle, start, end)`. -/
structure bl_included_t where
  uuid_str : String
  handle : Nat
  start_handle : Nat
  end_handle : Nat
  deriving DecidableEq, Repr

/-- Modelled from the spec: `bl_char_t` of `bluelib.h` (absent), taken to be the record
of the arguments given to `bl_char_new (uuid_str, handle, properties, value_handle)`. -/
structure bl_char_t where
  uuid_str : String
  handle : Nat
  properties : Nat
  value_handle : Nat
  deriving DecidableEq, Repr

/-- Modelled from the spec: `bl_desc_t` of `bluelib.h` (absent), taken to be the record
of the arguments given to `bl_desc_new (uuid_str, handle)`. -/
structure bl_desc_t where
  uuid_str : String
  handle : Nat
  deriving DecidableEq, Repr

/-- Modelled from the spec: `bl_value_t` of `bluelib.h` (absent), taken to be the record
of the arguments given to `bl_value_new (uuid_str, handle, data_size, data)`. -/
structure bl_value_t where
  uuid_str : Option String
  handle : Nat
  data_size : Int
  data : List Nat
  deriving DecidableEq, Repr

/-- What the untyped pointer `p_ret` can point to. -/
inductive Payload where
  | primary_list (l : List bl_primary_t)
  | included_list (l : List bl_included_t)
  | char_list (l : List bl_char_t)
  | desc_list (l : List bl_desc_t)
  | value (v : bl_value_t)
  | value_list (l : List bl_value_t)
  deriving DecidableEq, Repr

/-- The pointer value of a `GSList *`: `NULL` for the empty list. -/
def gslist_ptr {α : Type} (mk : List α → Payload) (l : List α) : Option Payload :=
  if l.isEmpty then none else some (mk l)

/-- The structure `cb_ctx_t` (`callback.h`, lines 35-39): the latch `cb_mutex`, the
result slot `p_ret` and the content of the error slot `*gerr`. -/
structure cb_ctx_t where
  cb_mutex : GMutex
  p_ret : Option Payload
  gerr : Option GError
  deriving DecidableEq, Repr

/-- The macro `CB_CTX_INIT` (`callback.h`, lines 42-53) applied to an error slot: the
context is zeroed, the latch is unlocked and then locked, the slot is emptied. -/
def CB_CTX_INIT (_pp_gerr : Option GError) : cb_ctx_t :=
  let zeroed : cb_ctx_t := ⟨⟨false, 0⟩, none, none⟩
  let c1 := { zeroed with cb_mutex := g_mutex_unlock zeroed.cb_mutex }
  let c2 := { c1 with cb_mutex := g_mutex_lock c1.cb_mutex }
  { c2 with gerr := none }

/-! ## The blocking wait (`callback.c`, lines 63-97) -/

/-- What the calling thread finds in shared memory during one `wait_for_cb`.
`disp k` are the dispatcher handles at the `k`-th inspection of them (numbered from 0);
`cb k` is what the dispatcher thread has done to the context between the previous
`g_mutex_trylock` of the call and the `k`-th one (a callback run, or nothing). -/
structure Env where
  disp : Nat → Dispatcher
  cb : Nat → cb_ctx_t → cb_ctx_t

/-- The context as the `k`-th `g_mutex_trylock` finds it when no earlier one of the
call succeeded. -/
def Env.ctx_at (E : Env) (cb_ctx : cb_ctx_t) : Nat → cb_ctx_t
  | 0 => E.cb 0 cb_ctx
  | k + 1 => E.cb (k + 1) (E.ctx_at cb_ctx k)

/-- The outcome of `wait_for_cb`: the returned code, the context and the globals
afterwards, whether a `g_mutex_trylock` succeeded, and the value read by the liveness
check of line 84 (`none` when the call returned before reaching it). -/
structure WaitResult where
  ret : Int
  cb_ctx : cb_ctx_t
  world : World
  acquired : Bool
  final_check : Option Bool
  deriving DecidableEq, Repr

/-- Lines 74-79 of `wait_for_cb`: the timeout branch. `n` numbers the inspection of
the handles made by `set_conn_state`. -/
def wait_for_cb_timeout (K : bl_consts) (E : Env) (n : Nat) (cb_ctx : cb_ctx_t)
    (w : World) : WaitResult :=
  let err := g_error_new K.BL_ERROR_DOMAIN K.BL_NO_CALLBACK_ERROR
    "Timeout no callback received\n"
  let ctx1 := { cb_ctx with gerr := g_propagate_error cb_ctx.gerr err }
  let w1 := set_conn_state conn_state_t.STATE_DISCONNECTED { w with disp := E.disp n }
  ⟨K.BL_NO_CALLBACK_ERROR, ctx1, w1, false, none⟩

/-- Lines 84-96 of `wait_for_cb`: the final liveness check and the result. `n` numbers
the inspection of the handles made by the check; `set_conn_state` makes the next one. -/
def wait_for_cb_finish (K : bl_consts) (E : Env) (n : Nat) (acquired : Bool)
    (cb_ctx : cb_ctx_t) (w : World) : WaitResult :=
  let running := is_event_loop_running (E.disp n)
  if !running then
    let w1 := set_conn_state conn_state_t.STATE_DISCONNECTED
      { w with disp := E.disp (n + 1) }
    let err := g_error_new K.BL_ERROR_DOMAIN K.BL_DISCONNECTED_ERROR
      "Event loop is not running\n"
    let ctx1 := { cb_ctx with gerr := g_propagate_error cb_ctx.gerr err }
    ⟨K.BL_DISCONNECTED_ERROR, ctx1, w1, acquired, some running⟩
  else
    match cb_ctx.gerr with
    | some e => ⟨e.code, cb_ctx, { w with disp := E.disp n }, acquired, some running⟩
    | none => ⟨K.BL_NO_ERROR, cb_ctx, { w with disp := E.disp n }, acquired, some running⟩

/-- Lines 68-81 of `wait_for_cb`: the polling loop, entered with the counter `wait_cnt`.
The round with counter `wait_cnt` makes the inspection `wait_cnt + 1` of the handles
and the `g_mutex_trylock` number `wait_cnt + 1`. -/
def wait_for_cb_loop (K : bl_consts) (E : Env) (wait_cnt : Nat) (cb_ctx : cb_ctx_t)
    (w : World) : WaitResult :=
  if is_event_loop_running (E.disp (wait_cnt + 1)) then
    let seen := E.cb (wait_cnt + 1) cb_ctx
    let got := g_mutex_trylock seen.cb_mutex
    let ctx1 := { seen with cb_mutex := got.2 }
    if !got.1 then
      let w1 := w.emit (Event.usleep 100000)
      if wait_cnt < CB_TIMEOUT_S * 10 then
        wait_for_cb_loop K E (wait_cnt + 1) ctx1 w1
      else
        wait_for_cb_timeout K E (wait_cnt + 2) ctx1 w1
    else
      wait_for_cb_finish K E (wait_cnt + 2) true ctx1 w
  else
    wait_for_cb_finish K E (wait_cnt + 2) false cb_ctx w
termination_by CB_TIMEOUT_S * 10 - wait_cnt
decreasing_by omega

/-- The function `wait_for_cb` (`callback.c`, lines 63-97). -/
def wait_for_cb (K : bl_consts) (E : Env) (cb_ctx : cb_ctx_t) (w : World) : WaitResult :=
  let seen := E.cb 0 cb_ctx
  let got := g_mutex_trylock seen.cb_mutex
  let ctx1 := { seen with cb_mutex := got.2 }
  if got.1 then
    wait_for_cb_finish K E 0 true ctx1 w
  else if is_event_loop_running (E.disp 0) then
    wait_for_cb_loop K E 0 ctx1 w
  else
    wait_for_cb_finish K E 1 false ctx1 w

/-! ## The result callbacks (`callback.c`, lines 171-637)

A callback receives what the protocol layer decoded (BlueZ, not part of the
sources) as an argument: the `GSList` of decoded records, or the value returned by
the `dec_*` function it calls on `(pdu, plen)`. -/

/-- The BlueZ structure `struct att_range`: the fields the callbacks read. -/
structure att_range where
  start : Nat
  end_ : Nat
  deriving DecidableEq, Repr

/-- The BlueZ structure `struct gatt_primary`: the fields the callbacks read. -/
structure gatt_primary where
  uuid : String
  changed : Nat
  range : att_range
  deriving DecidableEq, Repr

/-- The BlueZ structure `struct gatt_included`: the fields the callbacks read. -/
structure gatt_included where
  uuid : String
  handle : Nat
  range : att_range
  deriving DecidableEq, Repr

/-- The BlueZ structure `struct gatt_char`: the fields the callbacks read. -/
structure gatt_char where
  uuid : String
  handle : Nat
  properties : Nat
  value_handle : Nat
  deriving DecidableEq, Repr

/-- One element `list->data[i]` of the `struct att_data_list` returned by
`dec_find_info_resp`, as `char_desc_cb` reads it: `handle` is `att_get_u16 (value)`,
`uuid_str` the string `bt_uuid_to_string` writes for the UUID at `&value[2]`. -/
structure find_info_entry where
  handle : Nat
  uuid_str : String
  deriving DecidableEq, Repr

/-- One element `list->data[i]` of the `struct att_data_list` returned by
`dec_read_by_type_resp`, as `read_by_uuid_cb` reads it: `handle` is
`att_get_u16 (list->data[i])`, `value` the bytes at `list->data[i] + 2`. -/
structure read_by_type_entry where
  handle : Nat
  value : List Nat
  deriving DecidableEq, Repr

/-- The `struct att_data_list` returned by `dec_read_by_type_resp`: the length `len` of
an element and the elements (`num` is their number). -/
structure read_by_type_list where
  len : Nat
  data : List read_by_type_entry
  deriving DecidableEq, Repr

/-- The outcome of the memory allocations of one callback run: `obj i` tells whether the
constructor called for the element `i` of the input (`bl_primary_new`, `bl_char_new`,
...) returns an object rather than `NULL`; `slist` tells whether `g_slist_alloc` does. -/
structure Alloc where
  obj : Nat → Bool
  slist : Bool

/-- The allocations all succeed. -/
def Alloc.ok : Alloc :=
  ⟨fun _ => true, true⟩

/-- The allocation of the object for the element `i` fails, the others succeed. -/
def Alloc.fails_at (i : Nat) : Alloc :=
  ⟨fun k => decide (k ≠ i), true⟩

/-- Modelled from the spec: `bl_primary_new` of `bluelib.c` (absent), when it succeeds. -/
def bl_primary_new (uuid_str : Option String) (changed start_handle end_handle : Nat) :
    bl_primary_t :=
  ⟨uuid_str, changed, start_handle, end_handle⟩

/-- Modelled from the spec: `bl_included_new` of `bluelib.c` (absent), when it succeeds. -/
def bl_included_new (uuid_str : String) (handle start_handle end_handle : Nat) :
    bl_included_t :=
  ⟨uuid_str, handle, start_handle, end_handle⟩

/-- Modelled from the spec: `bl_char_new` of `bluelib.c` (absent), when it succeeds. -/
def bl_char_new (uuid_str : String) (handle properties value_handle : Nat) : bl_char_t :=
  ⟨uuid_str, handle, properties, value_handle⟩

/-- Modelled from the spec: `bl_desc_new` of `bluelib.c` (absent), when it succeeds. -/
def bl_desc_new (uuid_str : String) (handle : Nat) : bl_desc_t :=
  ⟨uuid_str, handle⟩

/-- Modelled from the spec: `bl_value_new` of `bluelib.c` (absent), when it succeeds. -/
def bl_value_new (uuid_str : Option String) (handle : Nat) (data_size : Int)
    (data : List Nat) : bl_value_t :=
  ⟨uuid_str, handle, data_size, data⟩

/-- The label `exit:` of the callbacks: the latch is released. -/
def cb_exit (cb_ctx : cb_ctx_t) : cb_ctx_t :=
  { cb_ctx with cb_mutex := g_mutex_unlock cb_ctx.cb_mutex }

/-- The label `error:` of the callbacks: `g_propagate_error (cb_ctx->gerr, err)`, then
`exit:`. The lists freed on the way are local to the callback. -/
def cb_error (err : GError) (cb_ctx : cb_ctx_t) : cb_ctx_t :=
  cb_exit { cb_ctx with gerr := g_propagate_error cb_ctx.gerr err }

/-- The loop of the list-building callbacks (lines 191-210, 249-268, 304-320, 355-376,
547-563), at the element `i` with the list `acc` built so far; `mk` is the constructor
call made on an element. The result is `none` for `goto malloc_error`. -/
def build_list {α β : Type} (A : Alloc) (mk : α → β) :
    Nat → List α → List β → Option (List β)
  | _, [], acc => some acc
  | i, x :: rest, acc =>
    if !A.obj i then
      none
    else if acc.isEmpty then
      if !A.slist then none else build_list A mk (i + 1) rest [mk x]
    else
      build_list A mk (i + 1) rest (acc ++ [mk x])

/-- The callback `primary_all_cb` (lines 171-227). -/
def primary_all_cb (K : bl_consts) (A : Alloc) (services : List gatt_primary)
    (status : Nat) (cb_ctx : cb_ctx_t) : cb_ctx_t :=
  if status ≠ 0 then
    cb_error (g_error_new K.BL_ERROR_DOMAIN K.BL_REQUEST_FAIL_ERROR " ") cb_ctx
  else if services.isEmpty then
    cb_exit cb_ctx
  else
    match build_list A (fun prim : gatt_primary =>
        bl_primary_new (some prim.uuid) prim.changed prim.range.start prim.range.end_)
        0 services [] with
    | some bl_primary_list =>
      cb_exit { cb_ctx with p_ret := gslist_ptr Payload.primary_list bl_primary_list }
    | none =>
      cb_error (g_error_new K.BL_ERROR_DOMAIN K.BL_MALLOC_ERROR "Malloc error\n") cb_ctx

/-- The callback `primary_by_uuid_cb` (lines 229-282). -/
def primary_by_uuid_cb (K : bl_consts) (A : Alloc) (ranges : List att_range)
    (status : Nat) (cb_ctx : cb_ctx_t) : cb_ctx_t :=
  if status ≠ 0 then
    cb_error (g_error_new K.BL_ERROR_DOMAIN K.BL_REQUEST_FAIL_ERROR " ") cb_ctx
  else if ranges.isEmpty then
    cb_exit cb_ctx
  else
    match build_list A (fun range : att_range =>
        bl_primary_new none 0 range.start range.end_) 0 ranges [] with
    | some bl_primary_list =>
      cb_exit { cb_ctx with p_ret := gslist_ptr Payload.primary_list bl_primary_list }
    | none =>
      cb_error (g_error_new K.BL_ERROR_DOMAIN K.BL_MALLOC_ERROR "Malloc error\n") cb_ctx

/-- The callback `included_cb` (lines 284-337). -/
def included_cb (K : bl_consts) (A : Alloc) (includes : List gatt_included)
    (status : Nat) (cb_ctx : cb_ctx_t) : cb_ctx_t :=
  if status ≠ 0 then
    cb_error (g_error_new K.BL_ERROR_DOMAIN K.BL_REQUEST_FAIL_ERROR " ") cb_ctx
  else if includes.isEmpty then
    cb_exit cb_ctx
  else
    match build_list A (fun incl : gatt_included =>
        bl_included_new incl.uuid incl.handle incl.range.start incl.range.end_)
        0 includes [] with
    | some bl_included_list =>
      cb_exit { cb_ctx with p_ret := gslist_ptr Payload.included_list bl_included_list }
    | none =>
      cb_error (g_error_new K.BL_ERROR_DOMAIN K.BL_MALLOC_ERROR "Malloc error\n") cb_ctx

/-- The callback `char_by_uuid_cb` (lines 339-394). Its `malloc_error:` label (lines
382-384) builds the error with the code `BL_REQUEST_FAIL_ERROR`. -/
def char_by_uuid_cb (K : bl_consts) (A : Alloc) (characteristics : List gatt_char)
    (status : Nat) (cb_ctx : cb_ctx_t) : cb_ctx_t :=
  if status ≠ 0 then
    cb_error (g_error_new K.BL_ERROR_DOMAIN K.BL_REQUEST_FAIL_ERROR " ") cb_ctx
  else
    match build_list A (fun chars : gatt_char =>
        bl_char_new chars.uuid chars.handle chars.properties chars.value_handle)
        0 characteristics [] with
    | some bl_char_list =>
      cb_exit { cb_ctx with p_ret := gslist_ptr Payload.char_list bl_char_list }
    | none =>
      cb_error (g_error_new K.BL_ERROR_DOMAIN K.BL_REQUEST_FAIL_ERROR "Malloc error\n")
        cb_ctx

/-- Modelled from the spec: `bl_value_free` of `bluelib.c` (absent). It releases the
memory of a value, `NULL` included, and writes nothing into the context: the pointer
it is given stays as it is. -/
def bl_value_free (p_ret : Option Payload) : Option Payload :=
  p_ret

/-- The labels `error:` and `exit:` of `read_by_hnd_cb` (lines 517-523). The `if` of
line 519 has an empty body, so `bl_value_free (cb_ctx->p_ret)` is always called. -/
def read_by_hnd_error (err : GError) (cb_ctx : cb_ctx_t) : cb_ctx_t :=
  let ctx1 := { cb_ctx with gerr := g_propagate_error cb_ctx.gerr err }
  let ctx2 := { ctx1 with p_ret := bl_value_free ctx1.p_ret }
  cb_exit ctx2

/-- The callback `read_by_hnd_cb` (lines 483-524). `vlen` and `data` are what
`dec_read_resp` returns and stores; `alloc` tells whether `bl_value_new` returns an
object. The test `data == NULL` of line 498 is on an array and never holds. -/
def read_by_hnd_cb (K : bl_consts) (vlen : Int) (data : List Nat) (alloc : Bool)
    (status : Nat) (cb_ctx : cb_ctx_t) : cb_ctx_t :=
  if status ≠ 0 then
    read_by_hnd_error (g_error_new K.BL_ERROR_DOMAIN K.BL_REQUEST_FAIL_ERROR " ") cb_ctx
  else if vlen < 0 then
    read_by_hnd_error (g_error_new K.BL_ERROR_DOMAIN K.BL_PROTOCOL_ERROR "Protocol error\n")
      cb_ctx
  else
    let ctx1 := { cb_ctx with
      p_ret := if alloc then some (Payload.value (bl_value_new none 0 vlen data)) else none }
    if ctx1.p_ret.isNone then
      read_by_hnd_error (g_error_new K.BL_ERROR_DOMAIN K.BL_MALLOC_ERROR "Malloc error\n")
        ctx1
    else
      cb_exit ctx1

/-- The callback `read_by_uuid_cb` (lines 526-577). `list` is what
`dec_read_by_type_resp` returns (`none` for `NULL`). -/
def read_by_uuid_cb (K : bl_consts) (A : Alloc) (list : Option read_by_type_list)
    (status : Nat) (cb_ctx : cb_ctx_t) : cb_ctx_t :=
  if status ≠ 0 then
    cb_error (g_error_new K.BL_ERROR_DOMAIN K.BL_REQUEST_FAIL_ERROR " ") cb_ctx
  else
    match list with
    | none => cb_exit cb_ctx
    | some list =>
      match build_list A (fun e : read_by_type_entry =>
          bl_value_new none e.handle ((list.len : Int) - 2) e.value) 0 list.data [] with
      | some bl_value_list =>
        cb_exit { cb_ctx with p_ret := gslist_ptr Payload.value_list bl_value_list }
      | none =>
        cb_error (g_error_new K.BL_ERROR_DOMAIN K.BL_MALLOC_ERROR "Malloc error\n") cb_ctx

/-- The callback `write_req_cb` (lines 579-601). `dec_write_resp` and
`dec_exec_write_resp` are the values the two decoders return. In the branch of lines
592-596 the error is built and the function jumps to `end:` without a
`g_propagate_error`. -/
def write_req_cb (K : bl_consts) (dec_write_resp dec_exec_write_resp : Nat)
    (status : Nat) (cb_ctx : cb_ctx_t) : cb_ctx_t :=
  if status ≠ 0 then
    let err := g_error_new K.BL_ERROR_DOMAIN K.BL_REQUEST_FAIL_ERROR " "
    cb_exit { cb_ctx with gerr := g_propagate_error cb_ctx.gerr err }
  else if dec_write_resp = 0 ∧ dec_exec_write_resp = 0 then
    let _err := g_error_new K.BL_ERROR_DOMAIN K.BL_PROTOCOL_ERROR "Protocol error\n"
    cb_exit cb_ctx
  else
    cb_exit cb_ctx

/-- The structure `mtu_cb_ctx_t` (`callback.h`, lines 69-74). -/
structure mtu_cb_ctx_t where
  cb_ctx : cb_ctx_t
  mtu : Nat
  opt_mtu : Int
  attrib : Nat
  deriving DecidableEq, Repr

/-- The callback `exchange_mtu_cb` (lines 603-637). `dec_mtu_resp` is the MTU the decoder
stores when it accepts the PDU (`none` when it returns 0 and stores nothing);
`set_mtu` is what `g_attrib_set_mtu` returns. `MIN` compares as `int` and the result is
stored into the `uint16_t` field. When `g_attrib_set_mtu` fails the error is built
(lines 625-626) and the function jumps to `exit:` without a `g_propagate_error`. -/
def exchange_mtu_cb (K : bl_consts) (dec_mtu_resp : Option Nat) (set_mtu : Bool)
    (status : Nat) (mtu_cb_ctx : mtu_cb_ctx_t) : mtu_cb_ctx_t :=
  if status ≠ 0 then
    let err := g_error_new K.BL_ERROR_DOMAIN K.BL_REQUEST_FAIL_ERROR " "
    { mtu_cb_ctx with cb_ctx := cb_error err mtu_cb_ctx.cb_ctx }
  else
    match dec_mtu_resp with
    | none =>
      let err := g_error_new K.BL_ERROR_DOMAIN K.BL_PROTOCOL_ERROR "Protocol error\n"
      { mtu_cb_ctx with cb_ctx := cb_error err mtu_cb_ctx.cb_ctx }
    | some mtu =>
      let ctx1 := { mtu_cb_ctx with
        mtu := ((min (mtu : Int) mtu_cb_ctx.opt_mtu) % 65536).toNat }
      if !set_mtu then
        let _err := g_error_new K.BL_ERROR_DOMAIN K.BL_PROTOCOL_ERROR
          "Unable to set new MTU value\n"
        { ctx1 with cb_ctx := cb_exit ctx1.cb_ctx }
      else
        { ctx1 with cb_ctx := cb_exit ctx1.cb_ctx }

/-- The structure `conn_cb_ctx_t` (`callback.h`, lines 56-60); the two pointers are
the identities of the objects, `none` for `NULL`. -/
structure conn_cb_ctx_t where
  cb_ctx : cb_ctx_t
  attrib : Option Nat
  iochannel : Option Nat
  deriving DecidableEq, Repr

/-- The callback `connect_cb` (lines 157-169). `err` is the error the transport layer
reports (`none` for `NULL`), which the callback stores as it is; `attrib_new` is what
`g_attrib_new (conn_cb_ctx->iochannel)` returns. -/
def connect_cb (err : Option GError) (attrib_new : Option Nat)
    (conn_cb_ctx : conn_cb_ctx_t) (w : World) : conn_cb_ctx_t × World :=
  match err with
  | some err =>
    let w1 := set_conn_state conn_state_t.STATE_DISCONNECTED w
    let ctx1 := { conn_cb_ctx.cb_ctx with
      gerr := g_propagate_error conn_cb_ctx.cb_ctx.gerr err }
    ({ conn_cb_ctx with cb_ctx := cb_exit ctx1 }, w1)
  | none =>
    let ctx1 := { conn_cb_ctx with attrib := attrib_new }
    let w1 := set_conn_state conn_state_t.STATE_CONNECTED w
    ({ ctx1 with cb_ctx := cb_exit ctx1.cb_ctx }, w1)

/-- The structure `char_desc_cb_ctx_t` (`callback.h`, lines 62-67). -/
structure char_desc_cb_ctx_t where
  cb_ctx : cb_ctx_t
  end_handle : Nat
  bl_desc_list : List bl_desc_t
  attrib : Nat
  deriving DecidableEq, Repr

/-- How the loop of `char_desc_cb` (lines 421-455) ends: it ran to the end of the list
with `handle` holding the last handle read, or it met a declaration (`goto exit`, line
453), or an allocation failed (`goto malloc_error`). -/
inductive desc_loop_end where
  | done (handle : Nat)
  | reached_end
  | malloc_error
  deriving DecidableEq, Repr

/-- The loop of `char_desc_cb` (lines 421-455), at the element `i`, with the value of
`handle` and the list `cd_cb_ctx->bl_desc_list` so far. -/
def char_desc_loop (K : bl_consts) (A : Alloc) :
    Nat → List find_info_entry → Nat → List bl_desc_t → List bl_desc_t × desc_loop_end
  | _, [], handle, acc => (acc, desc_loop_end.done handle)
  | i, e :: rest, _, acc =>
    if e.uuid_str ≠ K.GATT_PRIM_SVC_UUID_STR ∧ e.uuid_str ≠ K.GATT_SND_SVC_UUID_STR ∧
        e.uuid_str ≠ K.GATT_INCLUDE_UUID_STR ∧ e.uuid_str ≠ K.GATT_CHARAC_UUID_STR then
      if !A.obj i then
        (acc, desc_loop_end.malloc_error)
      else if acc.isEmpty then
        if !A.slist then
          (acc, desc_loop_end.malloc_error)
        else
          char_desc_loop K A (i + 1) rest e.handle [bl_desc_new e.uuid_str e.handle]
      else
        char_desc_loop K A (i + 1) rest e.handle (acc ++ [bl_desc_new e.uuid_str e.handle])
    else
      (acc, desc_loop_end.reached_end)

/-- The label `exit:` of `char_desc_cb` (lines 471-476): a non-empty accumulated list is
stored into `p_ret`, and the latch is released. -/
def char_desc_exit (cd_cb_ctx : char_desc_cb_ctx_t) : char_desc_cb_ctx_t :=
  let ctx1 :=
    if cd_cb_ctx.bl_desc_list.isEmpty then cd_cb_ctx.cb_ctx
    else { cd_cb_ctx.cb_ctx with p_ret := some (Payload.desc_list cd_cb_ctx.bl_desc_list) }
  { cd_cb_ctx with cb_ctx := cb_exit ctx1 }

/-- The label `error:` of `char_desc_cb` (lines 469-470), followed by `exit:`. -/
def char_desc_error (err : GError) (cd_cb_ctx : char_desc_cb_ctx_t) : char_desc_cb_ctx_t :=
  char_desc_exit { cd_cb_ctx with
    cb_ctx := { cd_cb_ctx.cb_ctx with gerr := g_propagate_error cd_cb_ctx.cb_ctx.gerr err } }

/-- The callback `char_desc_cb` (lines 396-481). `list` is what `dec_find_info_resp`
returns (`none` for `NULL`); `send` tells whether `gatt_discover_char_desc` accepts the
continuation request. The result is the context and the continuation request
`(start, end)` that was queued, if one was. After the `if` of lines 456-465 there is no
jump: when no continuation is due, control runs into the label `malloc_error:` of line
467. -/
def char_desc_cb (K : bl_consts) (A : Alloc) (send : Bool) (status : Nat)
    (list : Option (List find_info_entry)) (cd_cb_ctx : char_desc_cb_ctx_t) :
    char_desc_cb_ctx_t × Option (Nat × Nat) :=
  if status ≠ 0 then
    (char_desc_error (g_error_new K.BL_ERROR_DOMAIN K.BL_REQUEST_FAIL_ERROR " ") cd_cb_ctx,
      none)
  else
    match list with
    | none => (char_desc_exit cd_cb_ctx, none)
    | some list =>
      let looped := char_desc_loop K A 0 list 0xffff cd_cb_ctx.bl_desc_list
      let ctx1 := { cd_cb_ctx with bl_desc_list := looped.1 }
      let malloc_error :=
        char_desc_error (g_error_new K.BL_ERROR_DOMAIN K.BL_MALLOC_ERROR "Malloc error\n")
          ctx1
      match looped.2 with
      | desc_loop_end.malloc_error => (malloc_error, none)
      | desc_loop_end.reached_end => (char_desc_exit ctx1, none)
      | desc_loop_end.done handle =>
        if handle ≠ 0xffff ∧ handle < ctx1.end_handle then
          if send then
            (ctx1, some ((handle + 1) % 65536, ctx1.end_handle))
          else
            (char_desc_error (g_error_new K.BL_ERROR_DOMAIN K.BL_SEND_REQUEST_ERROR
              "Unable to send request\n") ctx1, none)
        else
          (malloc_error, none)

/-- Descriptor discovery as the dispatcher drives it: `char_desc_cb` is run on the pages
in turn with status 0, a page being delivered only when the run before it queued a
continuation request. `A` and `send` give, by page number, the outcome of the
allocations and of `gatt_discover_char_desc`. The result is the final context and the
list of the requests queued. -/
def char_desc_pages (K : bl_consts) (A : Nat → Alloc) (send : Nat → Bool) :
    Nat → List (List find_info_entry) → char_desc_cb_ctx_t →
      char_desc_cb_ctx_t × List (Nat × Nat)
  | _, [], cd_cb_ctx => (cd_cb_ctx, [])
  | n, page :: rest, cd_cb_ctx =>
    match char_desc_cb K (A n) (send n) 0 (some page) cd_cb_ctx with
    | (ctx1, some req) =>
      let r := char_desc_pages K A send (n + 1) rest ctx1
      (r.1, req :: r.2)
    | (ctx1, none) => (ctx1, [])

/-! ## Vocabulary of the statements -/

/-- The globals after `n` further `usleep(100000)` calls. -/
def slept (n : Nat) (w : World) : World :=
  { w with log := w.log ++ List.replicate n (Event.usleep 100000) }

/-- The code `wait_for_cb` returns for a given content of the error slot when it reaches
line 92 (lines 92-96). -/
def slot_code (K : bl_consts) (gerr : Option GError) : Int :=
  match gerr with
  | some e => e.code
  | none => K.BL_NO_ERROR

/-- What each way out of `wait_for_cb` guarantees, by the value of the last liveness
check: the code of the slot when it read true, `BL_DISCONNECTED_ERROR` when it read
false, `BL_NO_CALLBACK_ERROR` when the call timed out before it. -/
def WaitResult.sound (K : bl_consts) (r : WaitResult) : Prop :=
  match r.final_check with
  | some true => r.ret = slot_code K r.cb_ctx.gerr
  | some false => r.ret = K.BL_DISCONNECTED_ERROR ∧
      r.world.conn_state = conn_state_t.STATE_DISCONNECTED
  | none => r.ret = K.BL_NO_CALLBACK_ERROR ∧ r.acquired = false ∧
      r.world.conn_state = conn_state_t.STATE_DISCONNECTED

/-- The environment in which nothing else runs: every inspection finds the handles `d`
and the context is left alone. -/
def Env.quiet (d : Dispatcher) : Env :=
  ⟨fun _ => d, fun _ c => c⟩

/-- The environment in which the dispatcher is found running at the inspections before
the `j`-th and stopped from the `j`-th on, the context being left alone. -/
def Env.stops_at (j : Nat) : Env :=
  ⟨fun k => if k < j then ⟨some 1, some 1⟩ else ⟨none, some 1⟩, fun _ c => c⟩

/-- Handles of a running dispatcher. -/
def running_disp : Dispatcher :=
  ⟨some 1, some 1⟩

/-- A state of the globals with a running dispatcher and an established connection. -/
def running_world : World :=
  ⟨running_disp, conn_state_t.STATE_CONNECTED, []⟩

/-- A context whose latch has been released with the error `e` in its slot. -/
def released_ctx (e : Option GError) : cb_ctx_t :=
  { CB_CTX_INIT none with cb_mutex := g_mutex_unlock (CB_CTX_INIT none).cb_mutex, gerr := e }

/-- A callback run turned the context `c` into `c1` by storing an error of code `code`
into the error slot, leaving the result slot empty, and releasing the latch exactly once
(one more `g_mutex_unlock` on it than before, and the latch is free). -/
def failed_with (code : Int) (c c1 : cb_ctx_t) : Prop :=
  c1.gerr.map (fun e => e.code) = some code ∧ c1.p_ret = none ∧
  c1.cb_mutex.locked = false ∧ c1.cb_mutex.unlocks = c.cb_mutex.unlocks + 1

instance (code : Int) (c c1 : cb_ctx_t) : Decidable (failed_with code c c1) := by
  unfold failed_with
  infer_instance

/-- One characteristic, as `gatt_discover_char` reports it. -/
def sample_char : gatt_char :=
  ⟨"00002a00-0000-1000-8000-00805f9b34fb", 2, 2, 3⟩

/-- The entry is a descriptor: its UUID is none of the four declaration UUIDs (the test
of lines 433-436). -/
def is_descriptor (K : bl_consts) (e : find_info_entry) : Prop :=
  e.uuid_str ≠ K.GATT_PRIM_SVC_UUID_STR ∧ e.uuid_str ≠ K.GATT_SND_SVC_UUID_STR ∧
    e.uuid_str ≠ K.GATT_INCLUDE_UUID_STR ∧ e.uuid_str ≠ K.GATT_CHARAC_UUID_STR

/-- The value of `handle` after the loop of `char_desc_cb` has read the whole page: the
handle of the last entry, `0xffff` for an empty page. -/
def last_handle (page : List find_info_entry) : Nat :=
  page.foldl (fun _ e => e.handle) 0xffff

/-- The descriptors `char_desc_cb` builds from the entries of a page. -/
def descs_of (page : List find_info_entry) : List bl_desc_t :=
  page.map (fun e => bl_desc_new e.uuid_str e.handle)

/-- A descriptor-discovery context for the handle range ending at 4, freshly
initialised. -/
def sample_desc_ctx : char_desc_cb_ctx_t :=
  ⟨CB_CTX_INIT none, 4, [], 0⟩

/-- The first page of the sample discovery: descriptors at the handles 2 and 3. -/
def sample_page1 : List find_info_entry :=
  [⟨2, "00002901-0000-1000-8000-00805f9b34fb"⟩, ⟨3, "00002902-0000-1000-8000-00805f9b34fb"⟩]

/-- The second and last page of the sample discovery: a descriptor at the handle 4. -/
def sample_page2 : List find_info_entry :=
  [⟨4, "00002904-0000-1000-8000-00805f9b34fb"⟩]

/-- A run of `char_desc_cb` on the context `c` ended in the error `err` with the
accumulated list `l`: no continuation was queued, `err` was propagated to the error
slot, the latch was released once, and `l` was stored into the result slot. -/
def delivered_with (err : GError) (l : List bl_desc_t) (c : char_desc_cb_ctx_t)
    (r : char_desc_cb_ctx_t × Option (Nat × Nat)) : Prop :=
  r.2 = none ∧ r.1.bl_desc_list = l ∧
  r.1.cb_ctx.gerr = g_propagate_error c.cb_ctx.gerr err ∧
  r.1.cb_ctx.p_ret = some (Payload.desc_list l) ∧
  r.1.cb_ctx.cb_mutex = g_mutex_unlock c.cb_ctx.cb_mutex

instance (err : GError) (l : List bl_desc_t) (c : char_desc_cb_ctx_t)
    (r : char_desc_cb_ctx_t × Option (Nat × Nat)) : Decidable (delivered_with err l c r) := by
  unfold delivered_with
  infer_instance

/-- The sample discovery context after its first page: the descriptors at the handles 2
and 3 are accumulated and the continuation request is queued. -/
def sample_desc_ctx_page1 : char_desc_cb_ctx_t :=
  (char_desc_cb sample_consts Alloc.ok true 0 (some sample_page1) sample_desc_ctx).1

/-- The environment in which the dispatcher is found without loop handle at the
inspections before the `j`-th and running from the `j`-th on (the dispatcher thread
installs its loop in between), the context being left alone. -/
def Env.starts_at (j : Nat) : Env :=
  ⟨fun k => if k < j then ⟨none, some 1⟩ else ⟨some 1, some 1⟩, fun _ c => c⟩

/-- The number of the inspection of the handles made by the final liveness check (line
84) when the first `g_mutex_trylock` of the call to succeed is the `j`-th: when the very
first attempt succeeds the check of line 66 is not made. -/
def final_index (j : Nat) : Nat :=
  if j = 0 then 0 else j + 1

/-- The context is what a callback of `callback.c` leaves when it has run, and released
the latch, on a context whose error slot was empty (as `CB_CTX_INIT` leaves it). The
callbacks are listed with all their inputs; `char_desc_cb` counts when it queued no
continuation. `connect_cb` stores the error of the transport layer as it is: it is
taken to be an error proper, with a code that is not `BL_NO_ERROR` (`callback.h`, line
34: the `GError` is allocated only when there is an error). -/
inductive released_by_callback (K : bl_consts) : cb_ctx_t → Prop where
  | connect_ok (attrib_new : Option Nat) (c : conn_cb_ctx_t) (w : World)
      (h : c.cb_ctx.gerr = none) :
      released_by_callback K (connect_cb none attrib_new c w).1.cb_ctx
  | connect_error (err : GError) (attrib_new : Option Nat) (c : conn_cb_ctx_t) (w : World)
      (h : c.cb_ctx.gerr = none) (herr : err.code ≠ K.BL_NO_ERROR) :
      released_by_callback K (connect_cb (some err) attrib_new c w).1.cb_ctx
  | primary_all (A : Alloc) (services : List gatt_primary) (status : Nat) (c : cb_ctx_t)
      (h : c.gerr = none) : released_by_callback K (primary_all_cb K A services status c)
  | primary_by_uuid (A : Alloc) (ranges : List att_range) (status : Nat) (c : cb_ctx_t)
      (h : c.gerr = none) : released_by_callback K (primary_by_uuid_cb K A ranges status c)
  | included (A : Alloc) (includes : List gatt_included) (status : Nat) (c : cb_ctx_t)
      (h : c.gerr = none) : released_by_callback K (included_cb K A includes status c)
  | char_by_uuid (A : Alloc) (characteristics : List gatt_char) (status : Nat)
      (c : cb_ctx_t) (h : c.gerr = none) :
      released_by_callback K (char_by_uuid_cb K A characteristics status c)
  | char_desc (A : Alloc) (send : Bool) (status : Nat)
      (list : Option (List find_info_entry)) (c : char_desc_cb_ctx_t)
      (h : c.cb_ctx.gerr = none) (hrel : (char_desc_cb K A send status list c).2 = none) :
      released_by_callback K (char_desc_cb K A send status list c).1.cb_ctx
  | read_by_hnd (vlen : Int) (data : List Nat) (alloc : Bool) (status : Nat) (c : cb_ctx_t)
      (h : c.gerr = none) :
      released_by_callback K (read_by_hnd_cb K vlen data alloc status c)
  | read_by_uuid (A : Alloc) (list : Option read_by_type_list) (status : Nat)
      (c : cb_ctx_t) (h : c.gerr = none) :
      released_by_callback K (read_by_uuid_cb K A list status c)
  | write_req (dec_write_resp dec_exec_write_resp status : Nat) (c : cb_ctx_t)
      (h : c.gerr = none) :
      released_by_callback K (write_req_cb K dec_write_resp dec_exec_write_resp status c)
  | exchange_mtu (dec_mtu_resp : Option Nat) (set_mtu : Bool) (status : Nat)
      (c : mtu_cb_ctx_t) (h : c.cb_ctx.gerr = none) :
      released_by_callback K (exchange_mtu_cb K dec_mtu_resp set_mtu status c).cb_ctx

/-- The environment in which the `k`-th inspection finds the handles `live k` and the
dispatcher thread runs the callback `f` on the context just before the `j`-th
`g_mutex_trylock` of the call, and at no other time. -/
def Env.fires_at (live : Nat → Dispatcher) (j : Nat) (f : cb_ctx_t → cb_ctx_t) : Env :=
  ⟨live, fun k c => if k = j then f c else c⟩

/-- The context after `wait_for_cb` has taken its latch. -/
def latch_taken (c : cb_ctx_t) : cb_ctx_t :=
  { c with cb_mutex := g_mutex_lock c.cb_mutex }

/-- A wait during which the dispatcher runs throughout and `primary_all_cb` runs with
the status 0x0a just before the third `g_mutex_trylock` (number 2) of the call. -/
def sample_env_request_failed : Env :=
  Env.fires_at (fun _ => running_disp) 2 (primary_all_cb sample_consts Alloc.ok [] 10)

/-- A wait during which the dispatcher runs throughout and `read_by_hnd_cb` delivers a
4-byte value just before the second `g_mutex_trylock` (number 1) of the call. -/
def sample_env_value_read : Env :=
  Env.fires_at (fun _ => running_disp) 1 (read_by_hnd_cb sample_consts 4 [1, 2, 3, 4] true 0)

/-- A wait during which `write_req_cb` runs with success just before the third
`g_mutex_trylock` (number 2) of the call, the dispatcher being found running at the
inspections 0 to 2 and without loop handle from the inspection 3 on. -/
def sample_env_late_stop : Env :=
  Env.fires_at (fun k => if k < 3 then running_disp else ⟨none, some 1⟩) 2
    (write_req_cb sample_consts 1 0 0)

/-! # Theorems -/

/-! ## Basic facts -/

theorem codes_ne (K : bl_consts) :
    K.BL_NO_CALLBACK_ERROR ≠ K.BL_NO_ERROR ∧ K.BL_DISCONNECTED_ERROR ≠ K.BL_NO_ERROR ∧
    K.BL_REQUEST_FAIL_ERROR ≠ K.BL_NO_ERROR ∧ K.BL_PROTOCOL_ERROR ≠ K.BL_NO_ERROR ∧
    K.BL_MALLOC_ERROR ≠ K.BL_NO_ERROR ∧ K.BL_SEND_REQUEST_ERROR ≠ K.BL_NO_ERROR ∧
    K.BL_REQUEST_FAIL_ERROR ≠ K.BL_MALLOC_ERROR ∧
    K.BL_DISCONNECTED_ERROR ≠ K.BL_NO_CALLBACK_ERROR := by
  have h := K.codes_nodup
  simp only [List.nodup_cons, List.mem_cons, List.mem_singleton, List.not_mem_nil,
    not_or, or_false, not_false_eq_true, and_true, List.nodup_nil] at h
  obtain ⟨⟨h1, h2, h3, h4, h5, h6⟩, ⟨h7, -⟩, -, ⟨-, h8, -⟩, -⟩ := h
  exact ⟨Ne.symm h1, Ne.symm h2, Ne.symm h3, Ne.symm h4, Ne.symm h5, Ne.symm h6, h8,
    Ne.symm h7⟩

theorem set_conn_state_conn_state (s : conn_state_t) (w : World) :
    (set_conn_state s w).conn_state = s := by
  unfold set_conn_state stop_event_loop World.emit
  dsimp only
  split
  · split <;> rfl
  · rfl

theorem set_conn_state_disp (s : conn_state_t) (w : World) :
    (set_conn_state s w).disp = w.disp := by
  unfold set_conn_state stop_event_loop World.emit
  dsimp only
  split
  · split <;> rfl
  · rfl

theorem set_conn_state_not_running (s : conn_state_t) (w : World)
    (h : is_event_loop_running w.disp = false) :
    set_conn_state s w = { w with conn_state := s } := by
  unfold set_conn_state
  simp [h]

theorem set_conn_state_running (w : World) (h : is_event_loop_running w.disp = true) :
    ∃ loop, w.disp.event_loop = some loop ∧
      set_conn_state conn_state_t.STATE_DISCONNECTED w =
        { w with conn_state := conn_state_t.STATE_DISCONNECTED,
                 log := w.log ++ [Event.g_main_loop_quit loop] } := by
  unfold is_event_loop_running at h
  simp only [Bool.and_eq_true, Option.isSome_iff_exists] at h
  obtain ⟨h1, loop, hl⟩ := h
  refine ⟨loop, hl, ?_⟩
  unfold set_conn_state stop_event_loop World.emit
  obtain ⟨t, ht⟩ := h1
  simp [hl, ht, is_event_loop_running]

theorem slept_zero (w : World) : slept 0 w = w := by
  simp [slept]

theorem slept_succ (n : Nat) (w : World) :
    slept n (w.emit (Event.usleep 100000)) = slept (n + 1) w := by
  simp [slept, World.emit, List.replicate_succ]

theorem g_mutex_trylock_locked (m : GMutex) (h : m.locked = true) :
    g_mutex_trylock m = (false, m) := by
  simp [g_mutex_trylock, h]

theorem g_mutex_trylock_free (m : GMutex) (h : m.locked = false) :
    g_mutex_trylock m = (true, { m with locked := true }) := by
  simp [g_mutex_trylock, h]

theorem wait_for_cb_finish_sound (K : bl_consts) (E : Env) (n : Nat) (a : Bool)
    (c : cb_ctx_t) (w : World) : (wait_for_cb_finish K E n a c w).sound K := by
  unfold wait_for_cb_finish WaitResult.sound
  cases hr : is_event_loop_running (E.disp n)
  · simp [set_conn_state_conn_state]
  · cases hg : c.gerr <;> simp [slot_code, hg]

theorem wait_for_cb_timeout_sound (K : bl_consts) (E : Env) (n : Nat)
    (c : cb_ctx_t) (w : World) : (wait_for_cb_timeout K E n c w).sound K := by
  simp [wait_for_cb_timeout, WaitResult.sound, set_conn_state_conn_state]

theorem wait_for_cb_loop_sound (K : bl_consts) (E : Env) :
    ∀ (n i : Nat) (c : cb_ctx_t) (w : World), CB_TIMEOUT_S * 10 - i = n →
      (wait_for_cb_loop K E i c w).sound K := by
  intro n
  induction n with
  | zero =>
    intro i c w hn
    unfold wait_for_cb_loop
    dsimp only
    split
    · split
      · split
        · omega
        · exact wait_for_cb_timeout_sound K E _ _ _
      · exact wait_for_cb_finish_sound K E _ _ _ _
    · exact wait_for_cb_finish_sound K E _ _ _ _
  | succ n ih =>
    intro i c w hn
    unfold wait_for_cb_loop
    dsimp only
    split
    · split
      · split
        · exact ih (i + 1) _ _ (by omega)
        · exact wait_for_cb_timeout_sound K E _ _ _
      · exact wait_for_cb_finish_sound K E _ _ _ _
    · exact wait_for_cb_finish_sound K E _ _ _ _

theorem wait_for_cb_sound (K : bl_consts) (E : Env) (c : cb_ctx_t) (w : World) :
    (wait_for_cb K E c w).sound K := by
  unfold wait_for_cb
  dsimp only
  split
  · exact wait_for_cb_finish_sound K E _ _ _ _
  · split
    · exact wait_for_cb_loop_sound K E _ 0 _ _ rfl
    · exact wait_for_cb_finish_sound K E _ _ _ _

theorem ctx_at_step_locked (E : Env) (c0 : cb_ctx_t) (i : Nat)
    (h : (E.ctx_at c0 (i + 1)).cb_mutex.locked = true) :
    ({ E.cb (i + 1) (E.ctx_at c0 i) with
        cb_mutex := (g_mutex_trylock (E.cb (i + 1) (E.ctx_at c0 i)).cb_mutex).2 } : cb_ctx_t)
      = E.ctx_at c0 (i + 1) := by
  have h1 : E.cb (i + 1) (E.ctx_at c0 i) = E.ctx_at c0 (i + 1) := rfl
  rw [h1, g_mutex_trylock_locked _ h]

/-- While the dispatcher is seen running and the latch is found held, the polling loop
goes on to the timeout branch. -/
theorem wait_for_cb_loop_timeout (K : bl_consts) (E : Env) (c0 : cb_ctx_t)
    (hrun : ∀ k, is_event_loop_running (E.disp k) = true)
    (hlock : ∀ k, (E.ctx_at c0 k).cb_mutex.locked = true) :
    ∀ (n i : Nat) (w : World), i + n = CB_TIMEOUT_S * 10 →
      wait_for_cb_loop K E i (E.ctx_at c0 i) w =
        wait_for_cb_timeout K E (CB_TIMEOUT_S * 10 + 2)
          (E.ctx_at c0 (CB_TIMEOUT_S * 10 + 1)) (slept (n + 1) w) := by
  intro n
  induction n with
  | zero =>
    intro i w hn
    have hi : i = CB_TIMEOUT_S * 10 := by omega
    unfold wait_for_cb_loop
    dsimp only
    rw [ctx_at_step_locked E c0 i (hlock _)]
    have h1 : E.cb (i + 1) (E.ctx_at c0 i) = E.ctx_at c0 (i + 1) := rfl
    rw [h1, g_mutex_trylock_locked _ (hlock _)]
    simp only [hrun, if_true, Bool.not_false]
    rw [if_neg (by omega), hi, ← slept_succ, slept_zero]
  | succ n ih =>
    intro i w hn
    unfold wait_for_cb_loop
    dsimp only
    rw [ctx_at_step_locked E c0 i (hlock _)]
    have h1 : E.cb (i + 1) (E.ctx_at c0 i) = E.ctx_at c0 (i + 1) := rfl
    rw [h1, g_mutex_trylock_locked _ (hlock _)]
    simp only [hrun, if_true, Bool.not_false]
    rw [if_pos (by omega), ih (i + 1) _ (by omega), slept_succ]

/-- When the dispatcher is first seen stopped at the inspection `j` and the latch was
found held until then, the polling loop leaves for the final check without sleeping
again. -/
theorem wait_for_cb_loop_stopped (K : bl_consts) (E : Env) (c0 : cb_ctx_t) (j : Nat)
    (hj : j ≤ CB_TIMEOUT_S * 10 + 1)
    (hrun : ∀ k, k < j → is_event_loop_running (E.disp k) = true)
    (hstop : is_event_loop_running (E.disp j) = false)
    (hlock : ∀ k, k < j → (E.ctx_at c0 k).cb_mutex.locked = true) :
    ∀ (n i : Nat) (w : World), i + 1 + n = j →
      wait_for_cb_loop K E i (E.ctx_at c0 i) w =
        wait_for_cb_finish K E (j + 1) false (E.ctx_at c0 (j - 1)) (slept n w) := by
  intro n
  induction n with
  | zero =>
    intro i w hn
    have hi : i + 1 = j := by omega
    unfold wait_for_cb_loop
    dsimp only
    rw [hi, hstop]
    simp only [Bool.false_eq_true, if_false, slept_zero]
    have : j - 1 = i := by omega
    rw [this]
    have : i + 2 = j + 1 := by omega
    rw [this]
  | succ n ih =>
    intro i w hn
    unfold wait_for_cb_loop
    dsimp only
    have hl := hlock (i + 1) (by omega)
    rw [ctx_at_step_locked E c0 i hl]
    have h1 : E.cb (i + 1) (E.ctx_at c0 i) = E.ctx_at c0 (i + 1) := rfl
    rw [h1, g_mutex_trylock_locked _ hl]
    simp only [hrun (i + 1) (by omega), if_true, Bool.not_false]
    rw [if_pos (by omega), ih (i + 1) _ (by omega), slept_succ]

/-- A `wait_for_cb_finish` that saw the dispatcher running hands the context back as it
received it. -/
theorem wait_for_cb_finish_ctx (K : bl_consts) (E : Env) (n : Nat) (a : Bool)
    (c : cb_ctx_t) (w : World)
    (h : (wait_for_cb_finish K E n a c w).final_check = some true) :
    (wait_for_cb_finish K E n a c w).cb_ctx = c ∧
      (wait_for_cb_finish K E n a c w).acquired = a := by
  unfold wait_for_cb_finish at h ⊢
  cases hr : is_event_loop_running (E.disp n)
  · simp [hr] at h
  · cases hg : c.gerr <;> simp [hg]

/-- When the polling loop ends with the latch taken and the dispatcher running, the
context it hands back is the one found at a `g_mutex_trylock` that saw the latch free. -/
theorem wait_for_cb_loop_acquired (K : bl_consts) (E : Env) (c0 : cb_ctx_t) :
    ∀ (n i : Nat) (w : World), CB_TIMEOUT_S * 10 - i = n →
      (wait_for_cb_loop K E i (E.ctx_at c0 i) w).acquired = true →
      (wait_for_cb_loop K E i (E.ctx_at c0 i) w).final_check = some true →
      ∃ k, (E.ctx_at c0 k).cb_mutex.locked = false ∧
        (wait_for_cb_loop K E i (E.ctx_at c0 i) w).cb_ctx.gerr = (E.ctx_at c0 k).gerr ∧
        (wait_for_cb_loop K E i (E.ctx_at c0 i) w).cb_ctx.p_ret = (E.ctx_at c0 k).p_ret := by
  intro n
  induction n with
  | zero =>
    intro i w hn
    unfold wait_for_cb_loop
    dsimp only
    have h1 : E.cb (i + 1) (E.ctx_at c0 i) = E.ctx_at c0 (i + 1) := rfl
    rw [h1]
    cases hr : is_event_loop_running (E.disp (i + 1))
    · simp only [Bool.false_eq_true, if_false]
      intro ha hf
      rw [(wait_for_cb_finish_ctx K E _ _ _ _ hf).2] at ha
      cases ha
    · cases hl : (E.ctx_at c0 (i + 1)).cb_mutex.locked
      · rw [g_mutex_trylock_free _ hl]
        simp only [if_true, Bool.not_true, Bool.false_eq_true, if_false]
        intro _ hf
        rw [(wait_for_cb_finish_ctx K E _ _ _ _ hf).1]
        exact ⟨i + 1, hl, rfl, rfl⟩
      · rw [g_mutex_trylock_locked _ hl]
        simp only [if_true, Bool.not_false]
        rw [if_neg (by omega)]
        intro ha
        simp [wait_for_cb_timeout] at ha
  | succ n ih =>
    intro i w hn
    unfold wait_for_cb_loop
    dsimp only
    have h1 : E.cb (i + 1) (E.ctx_at c0 i) = E.ctx_at c0 (i + 1) := rfl
    rw [h1]
    cases hr : is_event_loop_running (E.disp (i + 1))
    · simp only [Bool.false_eq_true, if_false]
      intro ha hf
      rw [(wait_for_cb_finish_ctx K E _ _ _ _ hf).2] at ha
      cases ha
    · cases hl : (E.ctx_at c0 (i + 1)).cb_mutex.locked
      · rw [g_mutex_trylock_free _ hl]
        simp only [if_true, Bool.not_true, Bool.false_eq_true, if_false]
        intro _ hf
        rw [(wait_for_cb_finish_ctx K E _ _ _ _ hf).1]
        exact ⟨i + 1, hl, rfl, rfl⟩
      · rw [g_mutex_trylock_locked _ hl]
        simp only [if_true, Bool.not_false]
        rw [if_pos (by omega)]
        exact ih (i + 1) _ (by omega)

/-- When `wait_for_cb` ends with the latch taken and the dispatcher running, the context
it hands back is the one found at a `g_mutex_trylock` that saw the latch free. -/
theorem wait_for_cb_acquired (K : bl_consts) (E : Env) (c0 : cb_ctx_t) (w : World)
    (ha : (wait_for_cb K E c0 w).acquired = true)
    (hf : (wait_for_cb K E c0 w).final_check = some true) :
    ∃ k, (E.ctx_at c0 k).cb_mutex.locked = false ∧
      (wait_for_cb K E c0 w).cb_ctx.gerr = (E.ctx_at c0 k).gerr ∧
      (wait_for_cb K E c0 w).cb_ctx.p_ret = (E.ctx_at c0 k).p_ret := by
  unfold wait_for_cb at ha hf ⊢
  dsimp only at ha hf ⊢
  have h0 : E.cb 0 c0 = E.ctx_at c0 0 := rfl
  rw [h0] at ha hf ⊢
  cases hl : (E.ctx_at c0 0).cb_mutex.locked
  · rw [g_mutex_trylock_free _ hl] at ha hf ⊢
    simp only [if_true] at ha hf ⊢
    rw [(wait_for_cb_finish_ctx K E _ _ _ _ hf).1]
    exact ⟨0, hl, rfl, rfl⟩
  · rw [g_mutex_trylock_locked _ hl] at ha hf ⊢
    simp only [Bool.false_eq_true, if_false] at ha hf ⊢
    have hc : ({ E.ctx_at c0 0 with cb_mutex := (E.ctx_at c0 0).cb_mutex } : cb_ctx_t)
        = E.ctx_at c0 0 := rfl
    rw [hc] at ha hf ⊢
    cases hr : is_event_loop_running (E.disp 0)
    · rw [hr] at ha hf
      simp only [Bool.false_eq_true, if_false] at ha hf
      rw [(wait_for_cb_finish_ctx K E _ _ _ _ hf).2] at ha
      cases ha
    · rw [hr] at ha hf
      simp only [if_true] at ha hf ⊢
      exact wait_for_cb_loop_acquired K E c0 _ 0 w rfl ha hf

theorem wait_for_cb_finish_stopped (K : bl_consts) (E : Env) (n : Nat) (a : Bool)
    (c : cb_ctx_t) (w : World) (h0 : is_event_loop_running (E.disp n) = false)
    (h1 : is_event_loop_running (E.disp (n + 1)) = false) :
    wait_for_cb_finish K E n a c w =
      ⟨K.BL_DISCONNECTED_ERROR,
        { c with gerr := g_propagate_error c.gerr (g_error_new K.BL_ERROR_DOMAIN
            K.BL_DISCONNECTED_ERROR "Event loop is not running\n") },
        { w with disp := E.disp (n + 1), conn_state := conn_state_t.STATE_DISCONNECTED },
        a, some false⟩ := by
  unfold wait_for_cb_finish
  simp only [h0, Bool.not_false, if_true]
  rw [set_conn_state_not_running _ _ h1]

theorem ctx_at_quiet (d : Dispatcher) (c : cb_ctx_t) (k : Nat) :
    (Env.quiet d).ctx_at c k = c := by
  induction k with
  | zero => rfl
  | succ k ih =>
    show (Env.quiet d).cb (k + 1) ((Env.quiet d).ctx_at c k) = c
    rw [ih]
    rfl

theorem ctx_at_stops_at (j : Nat) (c : cb_ctx_t) (k : Nat) :
    (Env.stops_at j).ctx_at c k = c := by
  induction k with
  | zero => rfl
  | succ k ih =>
    show (Env.stops_at j).cb (k + 1) ((Env.stops_at j).ctx_at c k) = c
    rw [ih]
    rfl

/-! ## The claims on `wait_for_cb` -/

/-- When `wait_for_cb` has taken the latch and its final liveness check finds the event
loop running, the error slot it reads is the slot as it stood at a `g_mutex_trylock`
that found the latch released; the call returns `BL_NO_ERROR` when that slot is empty
and exactly the code of the stored error otherwise. -/
theorem wait_for_cb_returns_slot_code (K : bl_consts) (E : Env) (c0 : cb_ctx_t)
    (w : World)
    (hacq : (wait_for_cb K E c0 w).acquired = true)
    (hrun : (wait_for_cb K E c0 w).final_check = some true) :
    (∃ k, (E.ctx_at c0 k).cb_mutex.locked = false ∧
        (wait_for_cb K E c0 w).cb_ctx.gerr = (E.ctx_at c0 k).gerr) ∧
    ((wait_for_cb K E c0 w).cb_ctx.gerr = none →
        (wait_for_cb K E c0 w).ret = K.BL_NO_ERROR) ∧
    (∀ e, (wait_for_cb K E c0 w).cb_ctx.gerr = some e →
        (wait_for_cb K E c0 w).ret = e.code) ∧
    ((wait_for_cb K E c0 w).ret = K.BL_NO_ERROR ↔
        ((wait_for_cb K E c0 w).cb_ctx.gerr = none ∨
          ∃ e, (wait_for_cb K E c0 w).cb_ctx.gerr = some e ∧ e.code = K.BL_NO_ERROR)) := by
  have hs := wait_for_cb_sound K E c0 w
  unfold WaitResult.sound at hs
  rw [hrun] at hs
  dsimp only at hs
  obtain ⟨k, hk, hg, -⟩ := wait_for_cb_acquired K E c0 w hacq hrun
  refine ⟨⟨k, hk, hg⟩, ?_, ?_, ?_⟩
  · intro h
    rw [hs, h]
    rfl
  · intro e h
    rw [hs, h]
    rfl
  · rw [hs]
    cases (wait_for_cb K E c0 w).cb_ctx.gerr with
    | none => simp [slot_code]
    | some e => simp [slot_code]

/-- Let the event loop be found running at the liveness checks before the `j`-th and
stopped from the `j`-th on, `j` being one of the checks of the call, and the latch be
found held at every `g_mutex_trylock` made before that check. Then `wait_for_cb` returns
`BL_DISCONNECTED_ERROR` after the `j - 1` sleeps of the rounds that preceded the check.
Every call whose final liveness check reads false returns `BL_DISCONNECTED_ERROR`. -/
theorem wait_for_cb_stops_disconnected (K : bl_consts) (E : Env) (c0 : cb_ctx_t) (w : World)
    (j : Nat) (hj : j ≤ CB_TIMEOUT_S * 10 + 1)
    (hrun : ∀ k, k < j → is_event_loop_running (E.disp k) = true)
    (hstop : ∀ k, j ≤ k → is_event_loop_running (E.disp k) = false)
    (hlock : ∀ k, k < max j 1 → (E.ctx_at c0 k).cb_mutex.locked = true) :
    ((wait_for_cb K E c0 w).ret = K.BL_DISCONNECTED_ERROR ∧
      (wait_for_cb K E c0 w).acquired = false ∧
      (wait_for_cb K E c0 w).world.log =
        w.log ++ List.replicate (j - 1) (Event.usleep 100000) ∧
      get_conn_state (wait_for_cb K E c0 w).world = conn_state_t.STATE_DISCONNECTED) ∧
    (∀ (E1 : Env) (c1 : cb_ctx_t) (w1 : World),
      (wait_for_cb K E1 c1 w1).final_check = some false →
        (wait_for_cb K E1 c1 w1).ret = K.BL_DISCONNECTED_ERROR ∧
        get_conn_state (wait_for_cb K E1 c1 w1).world = conn_state_t.STATE_DISCONNECTED) := by
  constructor
  · have h0 : E.cb 0 c0 = E.ctx_at c0 0 := rfl
    have hl0 : (E.ctx_at c0 0).cb_mutex.locked = true := hlock 0 (by omega)
    have hc : ({ E.ctx_at c0 0 with cb_mutex := (E.ctx_at c0 0).cb_mutex } : cb_ctx_t)
        = E.ctx_at c0 0 := rfl
    unfold wait_for_cb
    dsimp only
    rw [h0, g_mutex_trylock_locked _ hl0]
    simp only [Bool.false_eq_true, if_false]
    rw [hc]
    rcases Nat.eq_zero_or_pos j with hz | hp
    · subst hz
      rw [hstop 0 (le_refl _)]
      simp only [Bool.false_eq_true, if_false]
      rw [wait_for_cb_finish_stopped K E 1 false _ w (hstop 1 (by omega))
        (hstop 2 (by omega))]
      simp [get_conn_state]
    · rw [hrun 0 hp]
      simp only [if_true]
      rw [wait_for_cb_loop_stopped K E c0 j hj hrun (hstop j (le_refl _))
        (fun k hk => hlock k (by omega)) (j - 1) 0 w (by omega)]
      rw [wait_for_cb_finish_stopped K E (j + 1) false _ _ (hstop _ (by omega))
        (hstop _ (by omega))]
      simp [get_conn_state, slept]
  · intro E1 c1 w1 hf
    have hs := wait_for_cb_sound K E1 c1 w1
    unfold WaitResult.sound at hs
    rw [hf] at hs
    exact hs

/-- C3. Let no `g_mutex_trylock` of the call find the latch released and let every
liveness check find the event loop running. Then `wait_for_cb` returns (the polling is
bounded) with `BL_NO_CALLBACK_ERROR`, without having taken the latch; what it did is
exactly `CB_TIMEOUT_S * 10 + 1` sleeps of 100 ms followed by the stop request of
`set_conn_state`: at least the `CB_TIMEOUT_S * 10 = 1200` sleeps of the 120 s timeout
and one polling interval more; the connection state is `STATE_DISCONNECTED` afterwards. -/
theorem C3_wait_for_cb_timeout (K : bl_consts) (E : Env) (c0 : cb_ctx_t) (w : World)
    (hrun : ∀ k, is_event_loop_running (E.disp k) = true)
    (hlock : ∀ k, (E.ctx_at c0 k).cb_mutex.locked = true) :
    (wait_for_cb K E c0 w).ret = K.BL_NO_CALLBACK_ERROR ∧
    (wait_for_cb K E c0 w).acquired = false ∧
    (∃ loop, (wait_for_cb K E c0 w).world.log =
      w.log ++ List.replicate (CB_TIMEOUT_S * 10 + 1) (Event.usleep 100000)
        ++ [Event.g_main_loop_quit loop]) ∧
    CB_TIMEOUT_S = 120 ∧ CB_TIMEOUT_S * 10 + 1 = 1201 ∧
    get_conn_state (wait_for_cb K E c0 w).world = conn_state_t.STATE_DISCONNECTED := by
  have h0 : E.cb 0 c0 = E.ctx_at c0 0 := rfl
  have hc : ({ E.ctx_at c0 0 with cb_mutex := (E.ctx_at c0 0).cb_mutex } : cb_ctx_t)
      = E.ctx_at c0 0 := rfl
  have hw : wait_for_cb K E c0 w = wait_for_cb_timeout K E (CB_TIMEOUT_S * 10 + 2)
      (E.ctx_at c0 (CB_TIMEOUT_S * 10 + 1)) (slept (CB_TIMEOUT_S * 10 + 1) w) := by
    unfold wait_for_cb
    dsimp only
    rw [h0, g_mutex_trylock_locked _ (hlock 0)]
    simp only [Bool.false_eq_true, if_false]
    rw [hc, hrun 0]
    simp only [if_true]
    exact wait_for_cb_loop_timeout K E c0 hrun hlock (CB_TIMEOUT_S * 10) 0 w (by omega)
  rw [hw]
  obtain ⟨loop, -, hq⟩ := set_conn_state_running
    { slept (CB_TIMEOUT_S * 10 + 1) w with disp := E.disp (CB_TIMEOUT_S * 10 + 2) }
    (hrun _)
  refine ⟨rfl, rfl, ⟨loop, ?_⟩, rfl, rfl, ?_⟩
  · unfold wait_for_cb_timeout
    dsimp only
    rw [hq]
    rfl
  · unfold wait_for_cb_timeout get_conn_state
    dsimp only
    exact set_conn_state_conn_state _ _

/-- C3, witness: the dispatcher runs throughout and nothing releases the latch of a
freshly initialised context; the wait times out after 1201 sleeps. -/
theorem C3_witness :
    (∀ k, is_event_loop_running ((Env.quiet running_disp).disp k) = true) ∧
    (∀ k, ((Env.quiet running_disp).ctx_at (CB_CTX_INIT none) k).cb_mutex.locked = true) ∧
    (wait_for_cb sample_consts (Env.quiet running_disp) (CB_CTX_INIT none)
        running_world).ret = sample_consts.BL_NO_CALLBACK_ERROR ∧
    (∃ loop, (wait_for_cb sample_consts (Env.quiet running_disp) (CB_CTX_INIT none)
        running_world).world.log =
      running_world.log ++ List.replicate (CB_TIMEOUT_S * 10 + 1) (Event.usleep 100000)
        ++ [Event.g_main_loop_quit loop]) ∧
    get_conn_state (wait_for_cb sample_consts (Env.quiet running_disp) (CB_CTX_INIT none)
        running_world).world = conn_state_t.STATE_DISCONNECTED :=
  have h1 : ∀ k, is_event_loop_running ((Env.quiet running_disp).disp k) = true :=
    fun _ => rfl
  have h2 : ∀ k,
      ((Env.quiet running_disp).ctx_at (CB_CTX_INIT none) k).cb_mutex.locked = true := by
    intro k
    rw [ctx_at_quiet]
    rfl
  have h := C3_wait_for_cb_timeout sample_consts (Env.quiet running_disp)
    (CB_CTX_INIT none) running_world h1 h2
  ⟨h1, h2, h.1, h.2.2.1, h.2.2.2.2.2⟩

/-! ## The claims on the event loop and the connection state -/

theorem start_event_loop_wait_running (env : Nat → World → World) (cnt : Nat) (w : World)
    (h : is_event_loop_running w.disp = true) : start_event_loop_wait env cnt w = w := by
  unfold start_event_loop_wait
  simp [h]

theorem start_event_loop_wait_no_thread (env : Nat → World → World) (cnt : Nat) (w : World)
    (h : w.disp.event_thread = none) : start_event_loop_wait env cnt w = w := by
  unfold start_event_loop_wait
  simp [h]

theorem start_event_loop_respawn (K : bl_consts) (t : GThread)
    (env : Nat → World → World) (w : World) (h : is_event_loop_running w.disp = true) :
    start_event_loop K (some t) env w = (K.BL_NO_ERROR,
      { (w.emit Event.g_mutex_init).emit Event.g_thread_try_new with
        disp := { w.disp with event_thread := some t } }) := by
  have hl : w.disp.event_loop.isSome = true := by
    unfold is_event_loop_running at h
    simp only [Bool.and_eq_true] at h
    exact h.2
  unfold start_event_loop
  dsimp only
  rw [start_event_loop_wait_running _ _ _ (by simp [is_event_loop_running, World.emit, hl])]
  rfl

/-- C4, as amended. `start_event_loop` has no test for a dispatcher that is already
running. Called when both handles are present it does not wait (no `sleep`) and leaves
the loop handle and the connection state alone, but it initialises the mutex again and
calls `g_thread_try_new` again, and the thread handle becomes what that call returns.
It returns `BL_NO_ERROR`, with `is_event_loop_running` still true, when that second spawn
succeeds, and `BL_DISCONNECTED_ERROR`, with `is_event_loop_running` false, when it fails. -/
theorem C4_start_event_loop_when_running (K : bl_consts) (spawn : Option GThread)
    (env : Nat → World → World) (w : World)
    (h : is_event_loop_running w.disp = true) :
    (start_event_loop K spawn env w).2.log =
      w.log ++ [Event.g_mutex_init, Event.g_thread_try_new] ∧
    (start_event_loop K spawn env w).2.disp.event_thread = spawn ∧
    (start_event_loop K spawn env w).2.disp.event_loop = w.disp.event_loop ∧
    (start_event_loop K spawn env w).2.conn_state = w.conn_state ∧
    (spawn ≠ none → (start_event_loop K spawn env w).1 = K.BL_NO_ERROR ∧
      is_event_loop_running (start_event_loop K spawn env w).2.disp = true) ∧
    (spawn = none → (start_event_loop K spawn env w).1 = K.BL_DISCONNECTED_ERROR ∧
      is_event_loop_running (start_event_loop K spawn env w).2.disp = false) := by
  have hl : w.disp.event_loop.isSome = true := by
    unfold is_event_loop_running at h
    simp only [Bool.and_eq_true] at h
    exact h.2
  cases spawn with
  | none =>
    unfold start_event_loop
    dsimp only
    rw [start_event_loop_wait_no_thread _ _ _ rfl]
    simp [World.emit, is_event_loop_running]
  | some t =>
    rw [start_event_loop_respawn K t env w h]
    simp [World.emit, is_event_loop_running, hl]

/-- C4, witness: a second start on a running dispatcher. -/
theorem C4_witness :
    is_event_loop_running running_world.disp = true ∧
    (start_event_loop sample_consts (some 2) (fun _ w => w) running_world).2.log =
      running_world.log ++ [Event.g_mutex_init, Event.g_thread_try_new] ∧
    (start_event_loop sample_consts (some 2) (fun _ w => w)
      running_world).2.disp.event_thread = some 2 :=
  have h := C4_start_event_loop_when_running sample_consts (some 2) (fun _ w => w)
    running_world rfl
  ⟨rfl, h.1, h.2.1⟩

/-- C4, counterexample to the claim as stated: the dispatcher runs with thread handle 1;
a second `start_event_loop` returns `BL_NO_ERROR` but has initialised the mutex and
spawned a thread again, and the thread handle is no longer the one of the running
dispatcher. -/
theorem C4_counterexample :
    is_event_loop_running running_world.disp = true ∧
    (start_event_loop sample_consts (some 2) (fun _ w => w) running_world).1 =
      sample_consts.BL_NO_ERROR ∧
    (start_event_loop sample_consts (some 2) (fun _ w => w) running_world).2.log =
      [Event.g_mutex_init, Event.g_thread_try_new] ∧
    (start_event_loop sample_consts (some 2) (fun _ w => w)
      running_world).2.disp.event_thread ≠ running_world.disp.event_thread := by
  rw [start_event_loop_respawn sample_consts 2 (fun _ w => w) running_world rfl]
  decide

theorem start_event_loop_spawn_failure (K : bl_consts) (env : Nat → World → World) (w : World) :
    start_event_loop K none env w = (K.BL_DISCONNECTED_ERROR,
      { (w.emit Event.g_mutex_init).emit Event.g_thread_try_new with
        disp := { w.disp with event_thread := none } }) := by
  unfold start_event_loop
  dsimp only
  rw [start_event_loop_wait_no_thread _ _ _ rfl]
  rfl

/-- C5, as amended. When `g_thread_try_new` returns `NULL`, `start_event_loop` returns
the error `BL_DISCONNECTED_ERROR` (which is not `BL_NO_ERROR`) without waiting: besides
the mutex initialisation and the spawn attempt it makes no call, in particular no
`sleep`. It does not write the connection state, which is afterwards what it was before
the call; the thread handle is `NULL` and the loop handle unchanged. -/
theorem C5_start_event_loop_spawn_failure (K : bl_consts) (env : Nat → World → World)
    (w : World) :
    (start_event_loop K none env w).1 = K.BL_DISCONNECTED_ERROR ∧
    (start_event_loop K none env w).1 ≠ K.BL_NO_ERROR ∧
    (start_event_loop K none env w).2.log =
      w.log ++ [Event.g_mutex_init, Event.g_thread_try_new] ∧
    get_conn_state (start_event_loop K none env w).2 = get_conn_state w ∧
    (start_event_loop K none env w).2.disp = { w.disp with event_thread := none } := by
  rw [start_event_loop_spawn_failure K env w]
  refine ⟨rfl, (codes_ne K).2.1, ?_, rfl, rfl⟩
  simp [World.emit]

/-- C5, counterexample to the claim as stated: the connection state is
`STATE_CONNECTING` when the spawn fails, and it still is when `start_event_loop` has
returned its error. -/
theorem C5_counterexample :
    (start_event_loop sample_consts none (fun _ w => w)
      ⟨⟨none, none⟩, conn_state_t.STATE_CONNECTING, []⟩).1 =
        sample_consts.BL_DISCONNECTED_ERROR ∧
    get_conn_state (start_event_loop sample_consts none (fun _ w => w)
      ⟨⟨none, none⟩, conn_state_t.STATE_CONNECTING, []⟩).2 =
        conn_state_t.STATE_CONNECTING ∧
    get_conn_state (start_event_loop sample_consts none (fun _ w => w)
      ⟨⟨none, none⟩, conn_state_t.STATE_CONNECTING, []⟩).2 ≠
        conn_state_t.STATE_DISCONNECTED := by
  have h := start_event_loop_spawn_failure sample_consts (fun _ w => w)
    ⟨⟨none, none⟩, conn_state_t.STATE_CONNECTING, []⟩
  rw [h]
  decide

theorem set_conn_state_no_stop (s : conn_state_t) (w : World)
    (h : ¬ (s = conn_state_t.STATE_DISCONNECTED ∧ is_event_loop_running w.disp = true)) :
    set_conn_state s w = { w with conn_state := s } := by
  unfold set_conn_state
  dsimp only
  rw [if_neg h]

theorem stop_event_loop_no_loop (w : World) (h : w.disp.event_loop = none) :
    stop_event_loop w = w := by
  unfold stop_event_loop
  rw [h]

/-- C6. For every state `s` and every prior state of the globals: `get_conn_state`
after `set_conn_state s` is `s`; the two dispatcher handles are never modified;
`set_conn_state` calls `g_main_loop_quit` (once, on the current loop) if and only if
`s = STATE_DISCONNECTED` and the dispatcher is running, and otherwise changes nothing
but the connection state; a second `set_conn_state s` leaves the connection state and
the dispatcher handles as the first one left them, and only repeats the calls the first
one made; `stop_event_loop` on a dispatcher without loop handle changes nothing, and
there the second `set_conn_state s` changes nothing at all. -/
theorem C6_set_conn_state (s : conn_state_t) (w : World) :
    get_conn_state (set_conn_state s w) = s ∧
    (set_conn_state s w).disp = w.disp ∧
    ((∃ loop, w.disp.event_loop = some loop ∧
        (set_conn_state s w).log = w.log ++ [Event.g_main_loop_quit loop]) ↔
      (s = conn_state_t.STATE_DISCONNECTED ∧ is_event_loop_running w.disp = true)) ∧
    (¬ (s = conn_state_t.STATE_DISCONNECTED ∧ is_event_loop_running w.disp = true) →
      set_conn_state s w = { w with conn_state := s }) ∧
    (get_conn_state (set_conn_state s (set_conn_state s w)) =
        get_conn_state (set_conn_state s w) ∧
      (set_conn_state s (set_conn_state s w)).disp = (set_conn_state s w).disp ∧
      (set_conn_state s (set_conn_state s w)).log =
        (set_conn_state s w).log ++ ((set_conn_state s w).log.drop w.log.length)) ∧
    (∀ w1 : World, w1.disp.event_loop = none →
      stop_event_loop w1 = w1 ∧
      set_conn_state s (set_conn_state s w1) = set_conn_state s w1) := by
  refine ⟨set_conn_state_conn_state s w, set_conn_state_disp s w, ?_,
    set_conn_state_no_stop s w, ⟨?_, ?_, ?_⟩, ?_⟩
  · constructor
    · rintro ⟨loop, -, hlog⟩
      by_contra hc
      rw [set_conn_state_no_stop s w hc] at hlog
      simp at hlog
    · rintro ⟨hs, hr⟩
      subst hs
      obtain ⟨loop, hl, hq⟩ := set_conn_state_running w hr
      exact ⟨loop, hl, by rw [hq]⟩
  · simp [get_conn_state, set_conn_state_conn_state]
  · simp [set_conn_state_disp]
  · by_cases hc : s = conn_state_t.STATE_DISCONNECTED ∧ is_event_loop_running w.disp = true
    · obtain ⟨hs, hr⟩ := hc
      subst hs
      obtain ⟨loop, hl, hq⟩ := set_conn_state_running w hr
      obtain ⟨loop1, hl1, hq1⟩ := set_conn_state_running
        (set_conn_state conn_state_t.STATE_DISCONNECTED w)
        (by rw [set_conn_state_disp]; exact hr)
      rw [set_conn_state_disp, hl] at hl1
      cases hl1
      rw [hq1, hq]
      simp
    · have hc1 : ¬ (s = conn_state_t.STATE_DISCONNECTED ∧
          is_event_loop_running (set_conn_state s w).disp = true) := by
        rw [set_conn_state_disp]
        exact hc
      rw [set_conn_state_no_stop s _ hc1, set_conn_state_no_stop s w hc]
      simp
  · intro w1 h1
    have hn : ¬ (s = conn_state_t.STATE_DISCONNECTED ∧
        is_event_loop_running w1.disp = true) := by
      simp [is_event_loop_running, h1]
    refine ⟨stop_event_loop_no_loop w1 h1, ?_⟩
    rw [set_conn_state_no_stop s w1 hn]
    exact set_conn_state_no_stop s _ hn

/-! ## The claims on the result callbacks -/

theorem cb_error_fresh (code : Int) (d : Nat) (msg : String) (pp : Option GError) :
    failed_with code (CB_CTX_INIT pp) (cb_error (g_error_new d code msg) (CB_CTX_INIT pp)) := by
  simp [failed_with, cb_error, cb_exit, CB_CTX_INIT, g_propagate_error, g_error_new,
    g_mutex_unlock, g_mutex_lock]

/-- C7. Each of the eight single-shot result callbacks, run with a non-zero status on a
freshly initialised context (`CB_CTX_INIT`), whatever its other inputs: afterwards the
error slot holds an error of code `BL_REQUEST_FAIL_ERROR`, the result slot `p_ret` is
still `NULL`, and the latch has been released exactly once. -/
theorem C7_callbacks_request_failure (K : bl_consts) (pp : Option GError) (status : Nat)
    (hs : status ≠ 0) (A : Alloc) :
    (∀ services, failed_with K.BL_REQUEST_FAIL_ERROR (CB_CTX_INIT pp)
      (primary_all_cb K A services status (CB_CTX_INIT pp))) ∧
    (∀ ranges, failed_with K.BL_REQUEST_FAIL_ERROR (CB_CTX_INIT pp)
      (primary_by_uuid_cb K A ranges status (CB_CTX_INIT pp))) ∧
    (∀ includes, failed_with K.BL_REQUEST_FAIL_ERROR (CB_CTX_INIT pp)
      (included_cb K A includes status (CB_CTX_INIT pp))) ∧
    (∀ characteristics, failed_with K.BL_REQUEST_FAIL_ERROR (CB_CTX_INIT pp)
      (char_by_uuid_cb K A characteristics status (CB_CTX_INIT pp))) ∧
    (∀ vlen data alloc, failed_with K.BL_REQUEST_FAIL_ERROR (CB_CTX_INIT pp)
      (read_by_hnd_cb K vlen data alloc status (CB_CTX_INIT pp))) ∧
    (∀ list, failed_with K.BL_REQUEST_FAIL_ERROR (CB_CTX_INIT pp)
      (read_by_uuid_cb K A list status (CB_CTX_INIT pp))) ∧
    (∀ dec_write_resp dec_exec_write_resp, failed_with K.BL_REQUEST_FAIL_ERROR
      (CB_CTX_INIT pp)
      (write_req_cb K dec_write_resp dec_exec_write_resp status (CB_CTX_INIT pp))) ∧
    (∀ dec_mtu_resp set_mtu mtu opt_mtu attrib, failed_with K.BL_REQUEST_FAIL_ERROR
      (CB_CTX_INIT pp)
      (exchange_mtu_cb K dec_mtu_resp set_mtu status
        ⟨CB_CTX_INIT pp, mtu, opt_mtu, attrib⟩).cb_ctx) := by
  have h := cb_error_fresh K.BL_REQUEST_FAIL_ERROR K.BL_ERROR_DOMAIN " " pp
  refine ⟨?_, ?_, ?_, ?_, ?_, ?_, ?_, ?_⟩
  · intro services
    unfold primary_all_cb
    rw [if_pos hs]
    exact h
  · intro ranges
    unfold primary_by_uuid_cb
    rw [if_pos hs]
    exact h
  · intro includes
    unfold included_cb
    rw [if_pos hs]
    exact h
  · intro characteristics
    unfold char_by_uuid_cb
    rw [if_pos hs]
    exact h
  · intro vlen data alloc
    unfold read_by_hnd_cb
    rw [if_pos hs]
    exact h
  · intro list
    unfold read_by_uuid_cb
    rw [if_pos hs]
    exact h
  · intro d1 d2
    unfold write_req_cb
    rw [if_pos hs]
    exact h
  · intro d s mtu opt attrib
    unfold exchange_mtu_cb
    rw [if_pos hs]
    exact h

/-- C7, witness: the status 0x0a (attribute not found) on fresh contexts. -/
theorem C7_witness :
    (10 : Nat) ≠ 0 ∧
    failed_with sample_consts.BL_REQUEST_FAIL_ERROR (CB_CTX_INIT none)
      (primary_all_cb sample_consts Alloc.ok [] 10 (CB_CTX_INIT none)) ∧
    failed_with sample_consts.BL_REQUEST_FAIL_ERROR (CB_CTX_INIT none)
      (write_req_cb sample_consts 0 0 10 (CB_CTX_INIT none)) :=
  have h := C7_callbacks_request_failure sample_consts none 10 (by decide) Alloc.ok
  ⟨by decide, h.1 [], h.2.2.2.2.2.2.1 0 0⟩

theorem build_list_alloc_failure {α β : Type} (A : Alloc) (mk : α → β) :
    ∀ (l : List α) (i : Nat) (acc : List β),
      (∃ k, k < l.length ∧ A.obj (i + k) = false) → build_list A mk i l acc = none := by
  intro l
  induction l with
  | nil =>
    intro i acc h
    obtain ⟨k, hk, -⟩ := h
    simp at hk
  | cons x rest ih =>
    intro i acc h
    obtain ⟨k, hk, hf⟩ := h
    unfold build_list
    cases hi : A.obj i
    · simp
    · have hk0 : k ≠ 0 := by
        intro h0
        subst h0
        rw [Nat.add_zero, hi] at hf
        cases hf
      obtain ⟨k1, rfl⟩ := Nat.exists_eq_succ_of_ne_zero hk0
      have hrest : ∃ k, k < rest.length ∧ A.obj (i + 1 + k) = false :=
        ⟨k1, by simpa using hk, by rw [← hf]; congr 1; omega⟩
      simp only [Bool.not_true, Bool.false_eq_true, if_false]
      split
      · split
        · rfl
        · exact ih (i + 1) _ hrest
      · exact ih (i + 1) _ hrest

/-- What the list-building callbacks do when the construction of an element fails, on a
fresh context with status 0 and a non-empty input: `primary_all_cb`,
`primary_by_uuid_cb`, `included_cb` and `read_by_uuid_cb` store `BL_MALLOC_ERROR`, leave
`p_ret` empty and release the latch once; `char_by_uuid_cb` does the same with the code
`BL_REQUEST_FAIL_ERROR`. -/
theorem list_callbacks_alloc_failure (K : bl_consts) (pp : Option GError) (A : Alloc) :
    (∀ services : List gatt_primary, (∃ k, k < services.length ∧ A.obj k = false) →
      failed_with K.BL_MALLOC_ERROR (CB_CTX_INIT pp)
        (primary_all_cb K A services 0 (CB_CTX_INIT pp))) ∧
    (∀ ranges : List att_range, (∃ k, k < ranges.length ∧ A.obj k = false) →
      failed_with K.BL_MALLOC_ERROR (CB_CTX_INIT pp)
        (primary_by_uuid_cb K A ranges 0 (CB_CTX_INIT pp))) ∧
    (∀ includes : List gatt_included, (∃ k, k < includes.length ∧ A.obj k = false) →
      failed_with K.BL_MALLOC_ERROR (CB_CTX_INIT pp)
        (included_cb K A includes 0 (CB_CTX_INIT pp))) ∧
    (∀ list : read_by_type_list, (∃ k, k < list.data.length ∧ A.obj k = false) →
      failed_with K.BL_MALLOC_ERROR (CB_CTX_INIT pp)
        (read_by_uuid_cb K A (some list) 0 (CB_CTX_INIT pp))) ∧
    (∀ characteristics : List gatt_char,
      (∃ k, k < characteristics.length ∧ A.obj k = false) →
      failed_with K.BL_REQUEST_FAIL_ERROR (CB_CTX_INIT pp)
        (char_by_uuid_cb K A characteristics 0 (CB_CTX_INIT pp))) := by
  have hne : ∀ {α : Type} (l : List α), (∃ k, k < l.length ∧ A.obj k = false) →
      l.isEmpty = false := by
    intro α l h
    obtain ⟨k, hk, -⟩ := h
    cases l with
    | nil => simp at hk
    | cons x r => rfl
  have hb : ∀ {α β : Type} (mk : α → β) (l : List α),
      (∃ k, k < l.length ∧ A.obj k = false) → build_list A mk 0 l [] = none := by
    intro α β mk l h
    apply build_list_alloc_failure
    simpa using h
  refine ⟨?_, ?_, ?_, ?_, ?_⟩
  · intro l h
    unfold primary_all_cb
    simp only [ne_eq, not_true_eq_false, if_false, hne l h, Bool.false_eq_true, hb _ l h]
    exact cb_error_fresh _ _ _ pp
  · intro l h
    unfold primary_by_uuid_cb
    simp only [ne_eq, not_true_eq_false, if_false, hne l h, Bool.false_eq_true, hb _ l h]
    exact cb_error_fresh _ _ _ pp
  · intro l h
    unfold included_cb
    simp only [ne_eq, not_true_eq_false, if_false, hne l h, Bool.false_eq_true, hb _ l h]
    exact cb_error_fresh _ _ _ pp
  · intro l h
    unfold read_by_uuid_cb
    simp only [ne_eq, not_true_eq_false, if_false, hb _ l.data h]
    exact cb_error_fresh _ _ _ pp
  · intro l h
    unfold char_by_uuid_cb
    simp only [ne_eq, not_true_eq_false, if_false, hb _ l h]
    exact cb_error_fresh _ _ _ pp

/-- C8, the failing input. `char_by_uuid_cb` is run with status 0 on one characteristic
whose `bl_char_new` returns `NULL`, on a fresh context: the latch is released once and
`p_ret` stays empty, but the error stored is the one of lines 383-384, with the message
"Malloc error" and the code `BL_REQUEST_FAIL_ERROR`, not `BL_MALLOC_ERROR`. -/
theorem C8_char_by_uuid_cb_alloc_failure :
    (char_by_uuid_cb sample_consts (Alloc.fails_at 0) [sample_char] 0
        (CB_CTX_INIT none)).gerr =
      some (g_error_new sample_consts.BL_ERROR_DOMAIN sample_consts.BL_REQUEST_FAIL_ERROR
        "Malloc error\n") ∧
    failed_with sample_consts.BL_REQUEST_FAIL_ERROR (CB_CTX_INIT none)
      (char_by_uuid_cb sample_consts (Alloc.fails_at 0) [sample_char] 0
        (CB_CTX_INIT none)) ∧
    ¬ failed_with sample_consts.BL_MALLOC_ERROR (CB_CTX_INIT none)
      (char_by_uuid_cb sample_consts (Alloc.fails_at 0) [sample_char] 0
        (CB_CTX_INIT none)) := by
  decide

/-- A wait on a context whose latch has been released, while the dispatcher runs and
nothing else happens, takes the latch at once and returns the code of the slot. -/
theorem wait_for_cb_released (K : bl_consts) (d : Dispatcher) (c : cb_ctx_t) (w : World)
    (hl : c.cb_mutex.locked = false) (hd : is_event_loop_running d = true) :
    (wait_for_cb K (Env.quiet d) c w).ret = slot_code K c.gerr ∧
    (wait_for_cb K (Env.quiet d) c w).acquired = true ∧
    (wait_for_cb K (Env.quiet d) c w).world.log = w.log := by
  have h0 : (Env.quiet d).cb 0 c = c := rfl
  have h1 : ∀ n, (Env.quiet d).disp n = d := fun _ => rfl
  unfold wait_for_cb
  dsimp only
  rw [h0, g_mutex_trylock_free _ hl]
  simp only [if_true]
  unfold wait_for_cb_finish
  simp only [h1, hd, Bool.not_true, Bool.false_eq_true, if_false]
  cases hg : c.gerr <;> simp [slot_code]

/-- What the PDU-decoding callbacks do with status 0 and a PDU that the decoder rejects,
on a fresh context: `read_by_hnd_cb` and `exchange_mtu_cb` store `BL_PROTOCOL_ERROR`
and release the latch once; `write_req_cb` releases the latch once and leaves the error
slot empty. -/
theorem decode_callbacks_protocol_error (K : bl_consts) (pp : Option GError) :
    (∀ vlen data alloc, vlen < 0 → failed_with K.BL_PROTOCOL_ERROR (CB_CTX_INIT pp)
      (read_by_hnd_cb K vlen data alloc 0 (CB_CTX_INIT pp))) ∧
    (∀ set_mtu mtu opt_mtu attrib, failed_with K.BL_PROTOCOL_ERROR (CB_CTX_INIT pp)
      (exchange_mtu_cb K none set_mtu 0 ⟨CB_CTX_INIT pp, mtu, opt_mtu, attrib⟩).cb_ctx) ∧
    ((write_req_cb K 0 0 0 (CB_CTX_INIT pp)).gerr = none ∧
      (write_req_cb K 0 0 0 (CB_CTX_INIT pp)).cb_mutex.locked = false ∧
      (write_req_cb K 0 0 0 (CB_CTX_INIT pp)).cb_mutex.unlocks =
        (CB_CTX_INIT pp).cb_mutex.unlocks + 1) := by
  refine ⟨?_, ?_, ?_⟩
  · intro vlen data alloc hv
    unfold read_by_hnd_cb
    simp only [ne_eq, not_true_eq_false, if_false, hv, if_true]
    exact cb_error_fresh _ _ _ pp
  · intro set_mtu mtu opt_mtu attrib
    unfold exchange_mtu_cb
    simp only [ne_eq, not_true_eq_false, if_false]
    exact cb_error_fresh _ _ _ pp
  · simp [write_req_cb, cb_exit, CB_CTX_INIT, g_mutex_unlock, g_mutex_lock]

/-- C9, the failing input. `write_req_cb` is run on a fresh context with status 0 and a
PDU that neither `dec_write_resp` nor `dec_exec_write_resp` accepts (both return 0): the
latch is released once but the error slot stays empty, and `wait_for_cb` on that context,
the event loop running, takes the latch and returns `BL_NO_ERROR`, not
`BL_PROTOCOL_ERROR`. -/
theorem C9_write_req_cb_protocol_error_lost :
    (write_req_cb sample_consts 0 0 0 (CB_CTX_INIT none)).gerr = none ∧
    (write_req_cb sample_consts 0 0 0 (CB_CTX_INIT none)).cb_mutex.locked = false ∧
    (write_req_cb sample_consts 0 0 0 (CB_CTX_INIT none)).cb_mutex.unlocks =
      (CB_CTX_INIT none).cb_mutex.unlocks + 1 ∧
    (wait_for_cb sample_consts (Env.quiet running_disp)
      (write_req_cb sample_consts 0 0 0 (CB_CTX_INIT none)) running_world).acquired = true ∧
    (wait_for_cb sample_consts (Env.quiet running_disp)
      (write_req_cb sample_consts 0 0 0 (CB_CTX_INIT none)) running_world).ret =
        sample_consts.BL_NO_ERROR ∧
    (wait_for_cb sample_consts (Env.quiet running_disp)
      (write_req_cb sample_consts 0 0 0 (CB_CTX_INIT none)) running_world).ret ≠
        sample_consts.BL_PROTOCOL_ERROR := by
  decide

theorem char_desc_loop_descriptors (K : bl_consts) :
    ∀ (page : List find_info_entry) (i handle : Nat) (acc : List bl_desc_t),
      (∀ e ∈ page, is_descriptor K e) →
      char_desc_loop K Alloc.ok i page handle acc =
        (acc ++ descs_of page,
          desc_loop_end.done (page.foldl (fun _ e => e.handle) handle)) := by
  intro page
  induction page with
  | nil =>
    intro i handle acc _
    simp [char_desc_loop, descs_of]
  | cons e rest ih =>
    intro i handle acc h
    have he : is_descriptor K e := h e (List.mem_cons_self _ _)
    have hr : ∀ x ∈ rest, is_descriptor K x := fun x hx => h x (List.mem_cons_of_mem _ hx)
    have hobj : Alloc.ok.obj i = true := rfl
    have hsl : Alloc.ok.slist = true := rfl
    unfold char_desc_loop
    unfold is_descriptor at he
    rw [if_pos he, hobj, hsl]
    simp only [Bool.not_true, Bool.false_eq_true, if_false]
    split
    · rename_i hacc
      have : acc = [] := by simpa using hacc
      subst this
      rw [ih _ _ _ hr]
      simp [descs_of]
    · rw [ih _ _ _ hr]
      simp [descs_of]

/-- A page of descriptors that ends below `end_handle`: `char_desc_cb` appends its
descriptors, queues the continuation request and leaves the latch, the result slot and
the error slot alone. -/
theorem char_desc_cb_continue (K : bl_consts) (page : List find_info_entry)
    (c : char_desc_cb_ctx_t) (hd : ∀ e ∈ page, is_descriptor K e)
    (hend : c.end_handle ≤ 0xffff) (hlast : last_handle page < c.end_handle) :
    char_desc_cb K Alloc.ok true 0 (some page) c =
      ({ c with bl_desc_list := c.bl_desc_list ++ descs_of page },
        some (last_handle page + 1, c.end_handle)) := by
  unfold last_handle at hlast
  unfold char_desc_cb
  simp only [ne_eq, not_true_eq_false, if_false, char_desc_loop_descriptors K page _ _ _ hd]
  rw [if_pos ⟨by omega, hlast⟩]
  simp only [if_true, last_handle]
  rw [Nat.mod_eq_of_lt (by omega)]

/-- A page of descriptors that ends at or beyond `end_handle`: `char_desc_cb` appends
its descriptors and then runs through the label `malloc_error:`. -/
theorem char_desc_cb_exhausted (K : bl_consts) (page : List find_info_entry)
    (c : char_desc_cb_ctx_t) (hd : ∀ e ∈ page, is_descriptor K e)
    (hlast : c.end_handle ≤ last_handle page) :
    char_desc_cb K Alloc.ok true 0 (some page) c =
      (char_desc_error (g_error_new K.BL_ERROR_DOMAIN K.BL_MALLOC_ERROR "Malloc error\n")
        { c with bl_desc_list := c.bl_desc_list ++ descs_of page }, none) := by
  unfold last_handle at hlast
  unfold char_desc_cb
  simp only [ne_eq, not_true_eq_false, if_false, char_desc_loop_descriptors K page _ _ _ hd]
  rw [if_neg (by omega)]

theorem char_desc_pages_continue (K : bl_consts) (A : Nat → Alloc) (send : Nat → Bool)
    (n : Nat) (page : List find_info_entry) (rest : List (List find_info_entry))
    (c c1 : char_desc_cb_ctx_t) (req : Nat × Nat)
    (h : char_desc_cb K (A n) (send n) 0 (some page) c = (c1, some req)) :
    char_desc_pages K A send n (page :: rest) c =
      ((char_desc_pages K A send (n + 1) rest c1).1,
        req :: (char_desc_pages K A send (n + 1) rest c1).2) := by
  rw [char_desc_pages, h]

theorem char_desc_pages_stop (K : bl_consts) (A : Nat → Alloc) (send : Nat → Bool)
    (n : Nat) (page : List find_info_entry) (rest : List (List find_info_entry))
    (c c1 : char_desc_cb_ctx_t)
    (h : char_desc_cb K (A n) (send n) 0 (some page) c = (c1, none)) :
    char_desc_pages K A send n (page :: rest) c = (c1, []) := by
  rw [char_desc_pages, h]

/-- Descriptor discovery over N pages of descriptors, the first N - 1 (`init`) ending
below `end_handle` and the last one at or beyond it, allocations and continuation
requests succeeding. The first N - 1 runs leave the latch and both slots alone and
queue the continuation requests (last handle + 1, `end_handle`). After the N-th run the
accumulated list is the former list followed by the descriptors of all pages in page
order and is stored in the result slot, the latch has been released once, and the error
slot has received the `BL_MALLOC_ERROR` of the label `malloc_error:`. -/
theorem char_desc_pages_exhausted (K : bl_consts) :
    ∀ (init : List (List find_info_entry)) (last : List find_info_entry) (n : Nat)
      (c : char_desc_cb_ctx_t),
      (∀ p ∈ init ++ [last], ∀ e ∈ p, is_descriptor K e) →
      c.end_handle ≤ 0xffff →
      (∀ p ∈ init, last_handle p < c.end_handle) →
      c.end_handle ≤ last_handle last →
      (char_desc_pages K (fun _ => Alloc.ok) (fun _ => true) n init c).1.cb_ctx = c.cb_ctx ∧
      (char_desc_pages K (fun _ => Alloc.ok) (fun _ => true) n (init ++ [last]) c).2 =
        init.map (fun p => (last_handle p + 1, c.end_handle)) ∧
      (char_desc_pages K (fun _ => Alloc.ok) (fun _ => true) n (init ++ [last]) c).1 =
        char_desc_error (g_error_new K.BL_ERROR_DOMAIN K.BL_MALLOC_ERROR "Malloc error\n")
          { c with bl_desc_list := c.bl_desc_list ++ descs_of (init ++ [last]).flatten } := by
  intro init
  induction init with
  | nil =>
    intro last n c hd _ _ hlast
    have hdl : ∀ e ∈ last, is_descriptor K e := hd last (by simp)
    have hlast1 := char_desc_pages_stop K (fun _ => Alloc.ok) (fun _ => true) n last []
      c _ (char_desc_cb_exhausted K last c hdl hlast)
    rw [List.nil_append, hlast1]
    simp [char_desc_pages]
  | cons p init ih =>
    intro last n c hd hend hinit hlast
    have hdp : ∀ e ∈ p, is_descriptor K e := hd p (by simp)
    have hp : last_handle p < c.end_handle := hinit p (by simp)
    have hstep := char_desc_cb_continue K p c hdp hend hp
    obtain ⟨h1, h2, h3⟩ := ih last (n + 1)
      { c with bl_desc_list := c.bl_desc_list ++ descs_of p }
      (fun q hq => hd q (by simp at hq ⊢; tauto)) hend
      (fun q hq => hinit q (by simp [hq])) hlast
    rw [List.cons_append,
      char_desc_pages_continue K (fun _ => Alloc.ok) (fun _ => true) n p _ c _ _ hstep,
      char_desc_pages_continue K (fun _ => Alloc.ok) (fun _ => true) n p _ c _ _ hstep]
    refine ⟨h1, ?_, ?_⟩
    · show _ :: _ = _
      rw [h2]
      rfl
    · show (char_desc_pages K _ _ (n + 1) (init ++ [last]) _).1 = _
      rw [h3]
      simp [descs_of]

/-- C10, the failing input. Descriptor discovery over the range ending at handle 4, in
N = 2 pages of descriptors (handles 2 and 3, then handle 4), all allocations and the
continuation request succeeding, on a fresh context. The first run queues the request
(4, 4) and does not touch the latch; after the second run the result slot holds the
three descriptors in page order and the latch has been released once, but the error
slot is not empty: it holds the `BL_MALLOC_ERROR` of the label `malloc_error:`. -/
theorem C10_char_desc_cb_last_page_sets_malloc_error :
    (char_desc_cb sample_consts Alloc.ok true 0 (some sample_page1) sample_desc_ctx).2 =
      some (4, 4) ∧
    (char_desc_cb sample_consts Alloc.ok true 0 (some sample_page1)
      sample_desc_ctx).1.cb_ctx = sample_desc_ctx.cb_ctx ∧
    (char_desc_pages sample_consts (fun _ => Alloc.ok) (fun _ => true) 0
      [sample_page1, sample_page2] sample_desc_ctx).1.cb_ctx.p_ret =
        some (Payload.desc_list (descs_of (sample_page1 ++ sample_page2))) ∧
    (char_desc_pages sample_consts (fun _ => Alloc.ok) (fun _ => true) 0
      [sample_page1, sample_page2] sample_desc_ctx).1.cb_ctx.cb_mutex =
        g_mutex_unlock sample_desc_ctx.cb_ctx.cb_mutex ∧
    (char_desc_pages sample_consts (fun _ => Alloc.ok) (fun _ => true) 0
      [sample_page1, sample_page2] sample_desc_ctx).1.cb_ctx.gerr =
        some (g_error_new sample_consts.BL_ERROR_DOMAIN sample_consts.BL_MALLOC_ERROR
          "Malloc error\n") ∧
    (char_desc_pages sample_consts (fun _ => Alloc.ok) (fun _ => true) 0
      [sample_page1, sample_page2] sample_desc_ctx).1.cb_ctx.gerr ≠ none := by
  decide

/-! ## Descriptor discovery that ends in an error -/

theorem char_desc_exit_nonempty (c : char_desc_cb_ctx_t) (h : c.bl_desc_list ≠ []) :
    char_desc_exit c =
      ⟨cb_exit ⟨c.cb_ctx.cb_mutex, some (Payload.desc_list c.bl_desc_list), c.cb_ctx.gerr⟩,
        c.end_handle, c.bl_desc_list, c.attrib⟩ := by
  unfold char_desc_exit
  have : c.bl_desc_list.isEmpty = false := by
    cases hl : c.bl_desc_list with
    | nil => exact absurd hl h
    | cons x r => rfl
  simp [this]

theorem char_desc_error_delivers (err : GError) (c : char_desc_cb_ctx_t)
    (l : List bl_desc_t) (h : l ≠ []) :
    delivered_with err l c (char_desc_error err { c with bl_desc_list := l }, none) := by
  unfold char_desc_error
  rw [char_desc_exit_nonempty _ h]
  simp [delivered_with, cb_exit]

theorem char_desc_loop_append (K : bl_consts) (A : Alloc) :
    ∀ (pre rest : List find_info_entry) (i handle : Nat) (acc : List bl_desc_t),
      acc ≠ [] → (∀ e ∈ pre, is_descriptor K e) →
      (∀ k, k < pre.length → A.obj (i + k) = true) →
      char_desc_loop K A i (pre ++ rest) handle acc =
        char_desc_loop K A (i + pre.length) rest
          (pre.foldl (fun _ e => e.handle) handle) (acc ++ descs_of pre) := by
  intro pre
  induction pre with
  | nil =>
    intro rest i handle acc _ _ _
    simp [descs_of]
  | cons e pre ih =>
    intro rest i handle acc hacc hd ha
    have he : is_descriptor K e := hd e (List.mem_cons_self _ _)
    have hr : ∀ x ∈ pre, is_descriptor K x := fun x hx => hd x (List.mem_cons_of_mem _ hx)
    have hobj : A.obj i = true := by
      have := ha 0 (by simp)
      simpa using this
    have hemp : acc.isEmpty = false := by
      cases hl : acc with
      | nil => exact absurd hl hacc
      | cons x r => rfl
    rw [List.cons_append]
    conv_lhs => unfold char_desc_loop
    unfold is_descriptor at he
    rw [if_pos he, hobj, hemp]
    simp only [Bool.not_true, Bool.false_eq_true, if_false]
    rw [ih rest (i + 1) e.handle _ (by simp) hr
      (fun k hk => by
        have := ha (k + 1) (by simp; omega)
        rw [← this]
        congr 1
        omega)]
    simp only [descs_of, List.map_cons, List.foldl_cons, List.length_cons, List.append_assoc,
      List.singleton_append]
    congr 1
    omega

theorem char_desc_loop_alloc_failure (K : bl_consts) (A : Alloc) (e : find_info_entry)
    (post : List find_info_entry) (i handle : Nat) (acc : List bl_desc_t)
    (he : is_descriptor K e) (hf : A.obj i = false) :
    char_desc_loop K A i (e :: post) handle acc = (acc, desc_loop_end.malloc_error) := by
  unfold char_desc_loop
  unfold is_descriptor at he
  rw [if_pos he, hf]
  simp

theorem char_desc_loop_page (K : bl_consts) (A : Alloc) (page : List find_info_entry)
    (acc : List bl_desc_t) (hacc : acc ≠ []) (hd : ∀ e ∈ page, is_descriptor K e)
    (ha : ∀ k, k < page.length → A.obj k = true) :
    char_desc_loop K A 0 page 0xffff acc =
      (acc ++ descs_of page, desc_loop_end.done (last_handle page)) := by
  have h := char_desc_loop_append K A page [] 0 0xffff acc hacc hd
    (fun k hk => by rw [Nat.zero_add]; exact ha k hk)
  rw [List.append_nil] at h
  rw [h]
  simp [char_desc_loop, last_handle]

/-- C11, as amended. Let `char_desc_cb` run on a context in which earlier pages have
accumulated a non-empty descriptor list, and let the run end in an error: a non-zero
status, the failure of `bl_desc_new` for a descriptor of the page, or the refusal of the
continuation request (`BL_SEND_REQUEST_ERROR`). Then no continuation is queued, the
error is propagated to the error slot, the latch is released once, and the result slot
`p_ret` receives the list accumulated so far, that is the list of the earlier pages
followed by the descriptors of this page built before the error: the partial list is
delivered to the caller together with the error. -/
theorem C11_char_desc_cb_error_delivers_partial_list (K : bl_consts) (A : Alloc)
    (send : Bool) (c : char_desc_cb_ctx_t) (hne : c.bl_desc_list ≠ []) :
    (∀ status list, status ≠ 0 →
      delivered_with (g_error_new K.BL_ERROR_DOMAIN K.BL_REQUEST_FAIL_ERROR " ")
        c.bl_desc_list c (char_desc_cb K A send status list c)) ∧
    (∀ pre e post, (∀ x ∈ pre, is_descriptor K x) → is_descriptor K e →
      (∀ k, k < pre.length → A.obj k = true) → A.obj pre.length = false →
      delivered_with (g_error_new K.BL_ERROR_DOMAIN K.BL_MALLOC_ERROR "Malloc error\n")
        (c.bl_desc_list ++ descs_of pre) c
        (char_desc_cb K A send 0 (some (pre ++ e :: post)) c)) ∧
    (∀ page, (∀ x ∈ page, is_descriptor K x) → (∀ k, k < page.length → A.obj k = true) →
      c.end_handle ≤ 0xffff → last_handle page < c.end_handle →
      delivered_with
        (g_error_new K.BL_ERROR_DOMAIN K.BL_SEND_REQUEST_ERROR "Unable to send request\n")
        (c.bl_desc_list ++ descs_of page) c
        (char_desc_cb K A false 0 (some page) c)) ∧
    (∀ d err, g_propagate_error d err ≠ none ∧ g_propagate_error none err = some err) := by
  refine ⟨?_, ?_, ?_, ?_⟩
  · intro status list hs
    unfold char_desc_cb
    rw [if_pos hs]
    exact char_desc_error_delivers _ c c.bl_desc_list hne
  · intro pre e post hd he ha hf
    have hloop : char_desc_loop K A 0 (pre ++ e :: post) 0xffff c.bl_desc_list =
        (c.bl_desc_list ++ descs_of pre, desc_loop_end.malloc_error) := by
      rw [char_desc_loop_append K A pre (e :: post) 0 0xffff c.bl_desc_list hne hd
        (fun k hk => by rw [Nat.zero_add]; exact ha k hk)]
      exact char_desc_loop_alloc_failure K A e post _ _ _ he (by rw [Nat.zero_add]; exact hf)
    unfold char_desc_cb
    simp only [ne_eq, not_true_eq_false, if_false, hloop]
    exact char_desc_error_delivers _ c _ (by simp [hne])
  · intro page hd ha hend hlast
    have hloop := char_desc_loop_page K A page c.bl_desc_list hne hd ha
    unfold char_desc_cb
    simp only [ne_eq, not_true_eq_false, if_false, hloop]
    rw [if_pos ⟨by omega, hlast⟩]
    simp only [Bool.false_eq_true, if_false]
    exact char_desc_error_delivers _ c _ (by simp [hne])
  · intro d err
    cases d <;> simp [g_propagate_error]

/-- C11, witness: the second page of the sample discovery answers with the status 0x0a
(attribute not found) after the first page has accumulated two descriptors. -/
theorem C11_witness :
    sample_desc_ctx_page1.bl_desc_list ≠ [] ∧
    delivered_with
      (g_error_new sample_consts.BL_ERROR_DOMAIN sample_consts.BL_REQUEST_FAIL_ERROR " ")
      sample_desc_ctx_page1.bl_desc_list sample_desc_ctx_page1
      (char_desc_cb sample_consts Alloc.ok true 10 none sample_desc_ctx_page1) :=
  ⟨by decide,
    (C11_char_desc_cb_error_delivers_partial_list sample_consts Alloc.ok true
      sample_desc_ctx_page1 (by decide)).1 10 none (by decide)⟩

/-- C11, counterexample to the claim as stated. The first page of the sample discovery
has accumulated the descriptors at the handles 2 and 3; the second run of `char_desc_cb`
gets the status 0x0a. The error slot receives `BL_REQUEST_FAIL_ERROR` and the latch is
released once, but the result slot is not empty: it holds the two descriptors. -/
theorem C11_counterexample :
    sample_desc_ctx_page1.bl_desc_list = descs_of sample_page1 ∧
    sample_desc_ctx_page1.cb_ctx = sample_desc_ctx.cb_ctx ∧
    (char_desc_cb sample_consts Alloc.ok true 10 none sample_desc_ctx_page1).1.cb_ctx.gerr =
      some (g_error_new sample_consts.BL_ERROR_DOMAIN sample_consts.BL_REQUEST_FAIL_ERROR
        " ") ∧
    (char_desc_cb sample_consts Alloc.ok true 10 none
      sample_desc_ctx_page1).1.cb_ctx.cb_mutex =
        g_mutex_unlock sample_desc_ctx.cb_ctx.cb_mutex ∧
    (char_desc_cb sample_consts Alloc.ok true 10 none sample_desc_ctx_page1).1.cb_ctx.p_ret =
      some (Payload.desc_list (descs_of sample_page1)) ∧
    (char_desc_cb sample_consts Alloc.ok true 10 none sample_desc_ctx_page1).1.cb_ctx.p_ret ≠
      none := by
  decide

/-! ## Success of `wait_for_cb` and the latch -/

theorem wait_for_cb_finish_acquired (K : bl_consts) (E : Env) (n : Nat) (a : Bool)
    (c : cb_ctx_t) (w : World) : (wait_for_cb_finish K E n a c w).acquired = a := by
  unfold wait_for_cb_finish
  cases hr : is_event_loop_running (E.disp n)
  · simp
  · cases hg : c.gerr <;> simp

theorem wait_for_cb_loop_unacquired (K : bl_consts) (E : Env) :
    ∀ (n i : Nat) (c : cb_ctx_t) (w : World), CB_TIMEOUT_S * 10 - i = n →
      (wait_for_cb_loop K E i c w).final_check = some true →
      (wait_for_cb_loop K E i c w).acquired = false →
      ∃ k, is_event_loop_running (E.disp k) = false := by
  intro n
  induction n with
  | zero =>
    intro i c w hn
    unfold wait_for_cb_loop
    dsimp only
    cases hr : is_event_loop_running (E.disp (i + 1))
    · intro _ _
      exact ⟨i + 1, hr⟩
    · simp only [if_true]
      split
      · rw [if_neg (by omega)]
        intro hf
        simp [wait_for_cb_timeout] at hf
      · intro _ ha
        rw [wait_for_cb_finish_acquired] at ha
        cases ha
  | succ n ih =>
    intro i c w hn
    unfold wait_for_cb_loop
    dsimp only
    cases hr : is_event_loop_running (E.disp (i + 1))
    · intro _ _
      exact ⟨i + 1, hr⟩
    · simp only [if_true]
      split
      · rw [if_pos (by omega)]
        exact ih (i + 1) _ _ (by omega)
      · intro _ ha
        rw [wait_for_cb_finish_acquired] at ha
        cases ha

/-- A `wait_for_cb` that returns `BL_NO_ERROR` has found the event loop running at its
final check; when it has not taken the latch, one of its liveness checks before that
found the event loop not running. So a success without the latch needs the liveness
readings to change during the call. -/
theorem wait_for_cb_success (K : bl_consts) (E : Env) (c : cb_ctx_t) (w : World)
    (hret : (wait_for_cb K E c w).ret = K.BL_NO_ERROR) :
    (wait_for_cb K E c w).final_check = some true ∧
    ((wait_for_cb K E c w).acquired = false →
      ∃ k, is_event_loop_running (E.disp k) = false) := by
  have hs := wait_for_cb_sound K E c w
  have hf : (wait_for_cb K E c w).final_check = some true := by
    unfold WaitResult.sound at hs
    cases hfc : (wait_for_cb K E c w).final_check with
    | none =>
      rw [hfc] at hs
      exact absurd (hs.1.symm.trans hret) (codes_ne K).1
    | some b =>
      cases b with
      | true => rfl
      | false =>
        rw [hfc] at hs
        exact absurd (hs.1.symm.trans hret) (codes_ne K).2.1
  refine ⟨hf, ?_⟩
  intro ha
  unfold wait_for_cb at hf ha
  dsimp only at hf ha
  split at ha
  · rw [wait_for_cb_finish_acquired] at ha
    cases ha
  · rename_i hgot
    rw [if_neg hgot] at hf
    cases hr : is_event_loop_running (E.disp 0)
    · exact ⟨0, hr⟩
    · rw [hr] at hf ha
      simp only [if_true] at hf ha
      exact wait_for_cb_loop_unacquired K E _ 0 _ _ rfl hf ha

/-- Outside the state `STATE_CONNECTING` the loop of `start_event_loop` does not wait:
after a successful spawn the function returns `BL_NO_ERROR` at once, whether or not the
new thread has installed its loop handle yet. -/
theorem start_event_loop_not_connecting (K : bl_consts) (t : GThread)
    (env : Nat → World → World) (w : World)
    (h : w.conn_state ≠ conn_state_t.STATE_CONNECTING) :
    start_event_loop K (some t) env w = (K.BL_NO_ERROR,
      { (w.emit Event.g_mutex_init).emit Event.g_thread_try_new with
        disp := { w.disp with event_thread := some t } }) := by
  have hw : ∀ w1 : World, w1.conn_state ≠ conn_state_t.STATE_CONNECTING →
      start_event_loop_wait env 0 w1 = w1 := by
    intro w1 h1
    unfold start_event_loop_wait
    simp [get_conn_state, h1]
  unfold start_event_loop
  dsimp only
  rw [hw _ (by simpa [World.emit] using h)]
  rfl

/-- C12, the failing input. The latch of a fresh context is held and no callback runs.
The first `g_mutex_trylock` fails, the liveness check of line 66 finds no loop handle
yet, so the polling loop is skipped; the dispatcher thread installs its loop, and the
liveness check of line 84 reads true. `wait_for_cb` returns `BL_NO_ERROR` although no
`g_mutex_trylock` has succeeded: the latch is still held and has never been released,
and both slots are empty. -/
theorem C12_wait_for_cb_success_without_latch :
    is_event_loop_running ((Env.starts_at 1).disp 0) = false ∧
    is_event_loop_running ((Env.starts_at 1).disp 1) = true ∧
    (wait_for_cb sample_consts (Env.starts_at 1) (CB_CTX_INIT none) running_world).ret =
      sample_consts.BL_NO_ERROR ∧
    (wait_for_cb sample_consts (Env.starts_at 1) (CB_CTX_INIT none) running_world).acquired =
      false ∧
    (wait_for_cb sample_consts (Env.starts_at 1) (CB_CTX_INIT none) running_world).cb_ctx =
      CB_CTX_INIT none ∧
    (CB_CTX_INIT none).cb_mutex.locked = true ∧
    (wait_for_cb sample_consts (Env.starts_at 1) (CB_CTX_INIT none) running_world).world.log =
      running_world.log := by
  decide

/-! ## Contexts released by a callback -/

theorem cb_exit_released (K : bl_consts) (c : cb_ctx_t) (h : c.gerr = none) :
    (cb_exit c).cb_mutex.locked = false ∧
      ∀ e, (cb_exit c).gerr = some e → e.code ≠ K.BL_NO_ERROR := by
  simp [cb_exit, g_mutex_unlock, h]

theorem cb_error_released (K : bl_consts) (err : GError) (c : cb_ctx_t) (h : c.gerr = none)
    (herr : err.code ≠ K.BL_NO_ERROR) :
    (cb_error err c).cb_mutex.locked = false ∧
      ∀ e, (cb_error err c).gerr = some e → e.code ≠ K.BL_NO_ERROR := by
  refine ⟨by simp [cb_error, cb_exit, g_mutex_unlock], ?_⟩
  intro e he
  simp only [cb_error, cb_exit, h, g_propagate_error, Option.some.injEq] at he
  rw [← he]
  exact herr

theorem char_desc_exit_released (K : bl_consts) (c : char_desc_cb_ctx_t)
    (h : c.cb_ctx.gerr = none) :
    (char_desc_exit c).cb_ctx.cb_mutex.locked = false ∧
      ∀ e, (char_desc_exit c).cb_ctx.gerr = some e → e.code ≠ K.BL_NO_ERROR := by
  unfold char_desc_exit
  dsimp only
  split
  · exact cb_exit_released K _ h
  · exact cb_exit_released K _ h

theorem char_desc_error_released (K : bl_consts) (err : GError) (c : char_desc_cb_ctx_t)
    (h : c.cb_ctx.gerr = none) (herr : err.code ≠ K.BL_NO_ERROR) :
    (char_desc_error err c).cb_ctx.cb_mutex.locked = false ∧
      ∀ e, (char_desc_error err c).cb_ctx.gerr = some e → e.code ≠ K.BL_NO_ERROR := by
  unfold char_desc_error char_desc_exit
  dsimp only
  have hp : g_propagate_error c.cb_ctx.gerr err = some err := by rw [h]; rfl
  split
  · refine ⟨by simp [cb_exit, g_mutex_unlock], ?_⟩
    intro e he
    simp only [cb_exit, hp, Option.some.injEq] at he
    rw [← he]
    exact herr
  · refine ⟨by simp [cb_exit, g_mutex_unlock], ?_⟩
    intro e he
    simp only [cb_exit, hp, Option.some.injEq] at he
    rw [← he]
    exact herr

/-- A context released by a callback of `callback.c` has a free latch, and its error
slot is empty or holds an error whose code is not `BL_NO_ERROR`. -/
theorem released_by_callback_slot (K : bl_consts) (c1 : cb_ctx_t)
    (hc : released_by_callback K c1) :
    c1.cb_mutex.locked = false ∧ ∀ e, c1.gerr = some e → e.code ≠ K.BL_NO_ERROR := by
  have hK := codes_ne K
  have hreq : ∀ msg, (g_error_new K.BL_ERROR_DOMAIN K.BL_REQUEST_FAIL_ERROR msg).code ≠
      K.BL_NO_ERROR := fun _ => hK.2.2.1
  have hprot : ∀ msg, (g_error_new K.BL_ERROR_DOMAIN K.BL_PROTOCOL_ERROR msg).code ≠
      K.BL_NO_ERROR := fun _ => hK.2.2.2.1
  have hmal : ∀ msg, (g_error_new K.BL_ERROR_DOMAIN K.BL_MALLOC_ERROR msg).code ≠
      K.BL_NO_ERROR := fun _ => hK.2.2.2.2.1
  have hsend : ∀ msg, (g_error_new K.BL_ERROR_DOMAIN K.BL_SEND_REQUEST_ERROR msg).code ≠
      K.BL_NO_ERROR := fun _ => hK.2.2.2.2.2.1
  cases hc with
  | connect_ok attrib_new c w h =>
    simp only [connect_cb]
    exact cb_exit_released K _ h
  | connect_error err attrib_new c w h herr =>
    simp only [connect_cb]
    exact cb_error_released K err _ h herr
  | primary_all A services status c h =>
    unfold primary_all_cb
    split
    · exact cb_error_released K _ c h (hreq _)
    · split
      · exact cb_exit_released K c h
      · split
        · exact cb_exit_released K _ h
        · exact cb_error_released K _ c h (hmal _)
  | primary_by_uuid A ranges status c h =>
    unfold primary_by_uuid_cb
    split
    · exact cb_error_released K _ c h (hreq _)
    · split
      · exact cb_exit_released K c h
      · split
        · exact cb_exit_released K _ h
        · exact cb_error_released K _ c h (hmal _)
  | included A includes status c h =>
    unfold included_cb
    split
    · exact cb_error_released K _ c h (hreq _)
    · split
      · exact cb_exit_released K c h
      · split
        · exact cb_exit_released K _ h
        · exact cb_error_released K _ c h (hmal _)
  | char_by_uuid A characteristics status c h =>
    unfold char_by_uuid_cb
    split
    · exact cb_error_released K _ c h (hreq _)
    · split
      · exact cb_exit_released K _ h
      · exact cb_error_released K _ c h (hreq _)
  | char_desc A send status list c h hrel =>
    unfold char_desc_cb at hrel ⊢
    split
    · exact char_desc_error_released K _ c h (hreq _)
    · rename_i hs
      rw [if_neg hs] at hrel
      split
      · exact char_desc_exit_released K c h
      · dsimp only at hrel ⊢
        split
        · exact char_desc_error_released K _ _ h (hmal _)
        · exact char_desc_exit_released K _ h
        · split
          · split
            · rename_i hl hcond hsend1
              simp [hl, hcond, hsend1] at hrel
            · exact char_desc_error_released K _ _ h (hsend _)
          · exact char_desc_error_released K _ _ h (hmal _)
  | read_by_hnd vlen data alloc status c h =>
    unfold read_by_hnd_cb
    split
    · exact cb_error_released K _ c h (hreq _)
    · split
      · exact cb_error_released K _ c h (hprot _)
      · cases alloc
        · simp only [Bool.false_eq_true, if_false, Option.isNone_none, if_true]
          exact cb_error_released K _ _ h (hmal _)
        · simp only [if_true, Option.isNone_some, Bool.false_eq_true, if_false]
          exact cb_exit_released K _ h
  | read_by_uuid A list status c h =>
    unfold read_by_uuid_cb
    split
    · exact cb_error_released K _ c h (hreq _)
    · split
      · exact cb_exit_released K c h
      · split
        · exact cb_exit_released K _ h
        · exact cb_error_released K _ c h (hmal _)
  | write_req d1 d2 status c h =>
    unfold write_req_cb
    split
    · exact cb_error_released K _ c h (hreq _)
    · split
      · exact cb_exit_released K c h
      · exact cb_exit_released K c h
  | exchange_mtu dec_mtu_resp set_mtu status c h =>
    unfold exchange_mtu_cb
    split
    · exact cb_error_released K _ _ h (hreq _)
    · split
      · exact cb_error_released K _ _ h (hprot _)
      · dsimp only
        split
        · exact cb_exit_released K _ h
        · exact cb_exit_released K _ h

/-! ## The ways through `wait_for_cb`, by what the environment shows -/

theorem wait_for_cb_finish_running (K : bl_consts) (E : Env) (n : Nat) (a : Bool)
    (c : cb_ctx_t) (w : World) (h : is_event_loop_running (E.disp n) = true) :
    wait_for_cb_finish K E n a c w =
      ⟨slot_code K c.gerr, c, { w with disp := E.disp n }, a, some true⟩ := by
  unfold wait_for_cb_finish
  simp only [h, Bool.not_true, Bool.false_eq_true, if_false]
  cases hg : c.gerr <;> simp [slot_code, hg]

theorem wait_for_cb_finish_dead (K : bl_consts) (E : Env) (n : Nat) (a : Bool)
    (c : cb_ctx_t) (w : World) (h : is_event_loop_running (E.disp n) = false) :
    (wait_for_cb_finish K E n a c w).ret = K.BL_DISCONNECTED_ERROR ∧
    (wait_for_cb_finish K E n a c w).acquired = a ∧
    (wait_for_cb_finish K E n a c w).final_check = some false ∧
    (wait_for_cb_finish K E n a c w).world.conn_state = conn_state_t.STATE_DISCONNECTED := by
  unfold wait_for_cb_finish
  simp only [h, Bool.not_false, if_true, set_conn_state_conn_state, and_self]

theorem ctx_at_step_free (E : Env) (c0 : cb_ctx_t) (i : Nat)
    (h : (E.ctx_at c0 (i + 1)).cb_mutex.locked = false) :
    ({ E.cb (i + 1) (E.ctx_at c0 i) with
        cb_mutex := (g_mutex_trylock (E.cb (i + 1) (E.ctx_at c0 i)).cb_mutex).2 } : cb_ctx_t)
      = latch_taken (E.ctx_at c0 (i + 1)) := by
  have h1 : E.cb (i + 1) (E.ctx_at c0 i) = E.ctx_at c0 (i + 1) := rfl
  rw [h1, g_mutex_trylock_free _ h]
  rfl

/-- While the dispatcher is seen running and the latch is found held, the polling loop
sleeps; at the first attempt that finds the latch free it takes it and goes to the
final check. -/
theorem wait_for_cb_loop_acquires (K : bl_consts) (E : Env) (c0 : cb_ctx_t) (j : Nat)
    (hj : j ≤ CB_TIMEOUT_S * 10 + 1)
    (hrun : ∀ k, k ≤ j → is_event_loop_running (E.disp k) = true)
    (hheld : ∀ k, k < j → (E.ctx_at c0 k).cb_mutex.locked = true)
    (hfree : (E.ctx_at c0 j).cb_mutex.locked = false) :
    ∀ (n i : Nat) (w : World), i + 1 + n = j →
      wait_for_cb_loop K E i (E.ctx_at c0 i) w =
        wait_for_cb_finish K E (j + 1) true (latch_taken (E.ctx_at c0 j)) (slept n w) := by
  intro n
  induction n with
  | zero =>
    intro i w hn
    have hi : j = i + 1 := by omega
    subst hi
    unfold wait_for_cb_loop
    dsimp only
    rw [ctx_at_step_free E c0 i hfree]
    have h1 : E.cb (i + 1) (E.ctx_at c0 i) = E.ctx_at c0 (i + 1) := rfl
    rw [h1, g_mutex_trylock_free _ hfree]
    simp only [hrun (i + 1) (le_refl _), if_true, Bool.not_true, Bool.false_eq_true,
      if_false, slept_zero]
  | succ n ih =>
    intro i w hn
    unfold wait_for_cb_loop
    dsimp only
    have hl := hheld (i + 1) (by omega)
    rw [ctx_at_step_locked E c0 i hl]
    have h1 : E.cb (i + 1) (E.ctx_at c0 i) = E.ctx_at c0 (i + 1) := rfl
    rw [h1, g_mutex_trylock_locked _ hl]
    simp only [hrun (i + 1) (by omega), if_true, Bool.not_false]
    rw [if_pos (by omega), ih (i + 1) _ (by omega), slept_succ]

/-- The call whose first successful `g_mutex_trylock` is the `j`-th, made before the
timeout: it sleeps `j - 1` times and goes to the final check with the latch taken. -/
theorem wait_for_cb_acquires (K : bl_consts) (E : Env) (c0 : cb_ctx_t) (w : World) (j : Nat)
    (hj : j ≤ CB_TIMEOUT_S * 10 + 1)
    (hrun : ∀ k, k < final_index j → is_event_loop_running (E.disp k) = true)
    (hheld : ∀ k, k < j → (E.ctx_at c0 k).cb_mutex.locked = true)
    (hfree : (E.ctx_at c0 j).cb_mutex.locked = false) :
    wait_for_cb K E c0 w =
      wait_for_cb_finish K E (final_index j) true (latch_taken (E.ctx_at c0 j))
        (slept (j - 1) w) := by
  have h0 : E.cb 0 c0 = E.ctx_at c0 0 := rfl
  unfold wait_for_cb
  dsimp only
  rw [h0]
  rcases Nat.eq_zero_or_pos j with hz | hp
  · subst hz
    rw [g_mutex_trylock_free _ hfree]
    have hs : slept (0 - 1) w = w := slept_zero w
    simp only [if_true, final_index, hs]
    rfl
  · have hf : final_index j = j + 1 := by
      unfold final_index
      rw [if_neg (by omega)]
    have hl0 := hheld 0 hp
    have hc : ({ E.ctx_at c0 0 with cb_mutex := (E.ctx_at c0 0).cb_mutex } : cb_ctx_t)
        = E.ctx_at c0 0 := rfl
    rw [g_mutex_trylock_locked _ hl0]
    simp only [Bool.false_eq_true, if_false]
    rw [hc, hrun 0 (by omega)]
    simp only [if_true]
    rw [hf]
    exact wait_for_cb_loop_acquires K E c0 j hj (fun k hk => hrun k (by omega)) hheld hfree
      (j - 1) 0 w (by omega)

/-- While the dispatcher is seen running and the latch is found held at every check and
attempt the call makes, the polling loop goes on to the timeout branch. -/
theorem wait_for_cb_loop_times_out (K : bl_consts) (E : Env) (c0 : cb_ctx_t)
    (hrun : ∀ k, k ≤ CB_TIMEOUT_S * 10 + 1 → is_event_loop_running (E.disp k) = true)
    (hlock : ∀ k, k ≤ CB_TIMEOUT_S * 10 + 1 → (E.ctx_at c0 k).cb_mutex.locked = true) :
    ∀ (n i : Nat) (w : World), i + n = CB_TIMEOUT_S * 10 →
      wait_for_cb_loop K E i (E.ctx_at c0 i) w =
        wait_for_cb_timeout K E (CB_TIMEOUT_S * 10 + 2)
          (E.ctx_at c0 (CB_TIMEOUT_S * 10 + 1)) (slept (n + 1) w) := by
  intro n
  induction n with
  | zero =>
    intro i w hn
    have hi : i = CB_TIMEOUT_S * 10 := by omega
    have hl := hlock (i + 1) (by omega)
    unfold wait_for_cb_loop
    dsimp only
    rw [ctx_at_step_locked E c0 i hl]
    have h1 : E.cb (i + 1) (E.ctx_at c0 i) = E.ctx_at c0 (i + 1) := rfl
    rw [h1, g_mutex_trylock_locked _ hl]
    simp only [hrun (i + 1) (by omega), if_true, Bool.not_false]
    rw [if_neg (by omega), hi, ← slept_succ, slept_zero]
  | succ n ih =>
    intro i w hn
    have hl := hlock (i + 1) (by omega)
    unfold wait_for_cb_loop
    dsimp only
    rw [ctx_at_step_locked E c0 i hl]
    have h1 : E.cb (i + 1) (E.ctx_at c0 i) = E.ctx_at c0 (i + 1) := rfl
    rw [h1, g_mutex_trylock_locked _ hl]
    simp only [hrun (i + 1) (by omega), if_true, Bool.not_false]
    rw [if_pos (by omega), ih (i + 1) _ (by omega), slept_succ]

/-- The call in which every liveness check of the polling reads true and every
`g_mutex_trylock` finds the latch held ends in the timeout branch after
`CB_TIMEOUT_S * 10 + 1` sleeps, whatever the dispatcher does afterwards. -/
theorem wait_for_cb_times_out (K : bl_consts) (E : Env) (c0 : cb_ctx_t) (w : World)
    (hrun : ∀ k, k ≤ CB_TIMEOUT_S * 10 + 1 → is_event_loop_running (E.disp k) = true)
    (hlock : ∀ k, k ≤ CB_TIMEOUT_S * 10 + 1 → (E.ctx_at c0 k).cb_mutex.locked = true) :
    wait_for_cb K E c0 w =
      wait_for_cb_timeout K E (CB_TIMEOUT_S * 10 + 2)
        (E.ctx_at c0 (CB_TIMEOUT_S * 10 + 1)) (slept (CB_TIMEOUT_S * 10 + 1) w) := by
  have h0 : E.cb 0 c0 = E.ctx_at c0 0 := rfl
  have hc : ({ E.ctx_at c0 0 with cb_mutex := (E.ctx_at c0 0).cb_mutex } : cb_ctx_t)
      = E.ctx_at c0 0 := rfl
  unfold wait_for_cb
  dsimp only
  rw [h0, g_mutex_trylock_locked _ (hlock 0 (by omega))]
  simp only [Bool.false_eq_true, if_false]
  rw [hc, hrun 0 (by omega)]
  simp only [if_true]
  exact wait_for_cb_loop_times_out K E c0 hrun hlock (CB_TIMEOUT_S * 10) 0 w (by omega)

theorem ctx_at_fires_at (live : Nat → Dispatcher) (j : Nat) (f : cb_ctx_t → cb_ctx_t)
    (c : cb_ctx_t) :
    (∀ k, k < j → (Env.fires_at live j f).ctx_at c k = c) ∧
      (Env.fires_at live j f).ctx_at c j = f c := by
  have hb : ∀ k, k < j → (Env.fires_at live j f).ctx_at c k = c := by
    intro k
    induction k with
    | zero =>
      intro hk
      show (if 0 = j then f c else c) = c
      rw [if_neg (by omega)]
    | succ k ih =>
      intro hk
      show (if k + 1 = j then f _ else (Env.fires_at live j f).ctx_at c k) = c
      rw [if_neg (by omega), ih (by omega)]
  refine ⟨hb, ?_⟩
  cases j with
  | zero =>
    show (if 0 = 0 then f c else c) = f c
    rw [if_pos rfl]
  | succ j =>
    show (if j + 1 = j + 1 then f ((Env.fires_at live (j + 1) f).ctx_at c j) else _) = f c
    rw [if_pos rfl, hb j (by omega)]

/-! ## The claims on the result of `wait_for_cb` -/

/-- C1. Let the latch be found held at the attempts before the `j`-th, which is made
before the timeout, let the context found at the `j`-th attempt be what a callback of
`callback.c` has left on releasing the latch, and let the liveness checks of the call,
the final one included, find the event loop running. Then `wait_for_cb` takes the
latch, the slots it hands back are those the callback left, it returns `BL_NO_ERROR`
if and only if the error slot is empty, and otherwise it returns exactly the code of
the error stored in that slot. -/
theorem C1_wait_for_cb_returns_callback_result (K : bl_consts) (E : Env) (c0 : cb_ctx_t)
    (w : World) (j : Nat) (hj : j ≤ CB_TIMEOUT_S * 10 + 1)
    (hheld : ∀ k, k < j → (E.ctx_at c0 k).cb_mutex.locked = true)
    (hcb : released_by_callback K (E.ctx_at c0 j))
    (hrun : ∀ k, k ≤ final_index j → is_event_loop_running (E.disp k) = true) :
    (wait_for_cb K E c0 w).acquired = true ∧
    (wait_for_cb K E c0 w).final_check = some true ∧
    (wait_for_cb K E c0 w).cb_ctx.gerr = (E.ctx_at c0 j).gerr ∧
    (wait_for_cb K E c0 w).cb_ctx.p_ret = (E.ctx_at c0 j).p_ret ∧
    ((wait_for_cb K E c0 w).ret = K.BL_NO_ERROR ↔ (E.ctx_at c0 j).gerr = none) ∧
    (∀ e, (E.ctx_at c0 j).gerr = some e → (wait_for_cb K E c0 w).ret = e.code) := by
  obtain ⟨hfree, hslot⟩ := released_by_callback_slot K _ hcb
  rw [wait_for_cb_acquires K E c0 w j hj (fun k hk => hrun k (by omega)) hheld hfree,
    wait_for_cb_finish_running K E _ _ _ _ (hrun _ (le_refl _))]
  refine ⟨rfl, rfl, rfl, rfl, ?_, ?_⟩
  · show slot_code K (E.ctx_at c0 j).gerr = K.BL_NO_ERROR ↔ _
    cases hg : (E.ctx_at c0 j).gerr with
    | none => simp [slot_code]
    | some e => simpa [slot_code] using hslot e hg
  · intro e he
    show slot_code K (E.ctx_at c0 j).gerr = e.code
    rw [he]
    rfl

/-- C1, witness: the wait polls twice before `primary_all_cb` releases the latch with a
`BL_REQUEST_FAIL_ERROR`, and once before `read_by_hnd_cb` releases it with a value; the
first call returns the code of the error, the second `BL_NO_ERROR`. -/
theorem C1_witness :
    (2 ≤ CB_TIMEOUT_S * 10 + 1) ∧
    (∀ k, k < 2 →
      (sample_env_request_failed.ctx_at (CB_CTX_INIT none) k).cb_mutex.locked = true) ∧
    released_by_callback sample_consts
      (sample_env_request_failed.ctx_at (CB_CTX_INIT none) 2) ∧
    (∀ k, k ≤ final_index 2 →
      is_event_loop_running (sample_env_request_failed.disp k) = true) ∧
    (wait_for_cb sample_consts sample_env_request_failed (CB_CTX_INIT none)
      running_world).acquired = true ∧
    (wait_for_cb sample_consts sample_env_request_failed (CB_CTX_INIT none)
      running_world).ret = sample_consts.BL_REQUEST_FAIL_ERROR ∧
    ((wait_for_cb sample_consts sample_env_value_read (CB_CTX_INIT none)
      running_world).ret = sample_consts.BL_NO_ERROR ↔
        (sample_env_value_read.ctx_at (CB_CTX_INIT none) 1).gerr = none) ∧
    (sample_env_value_read.ctx_at (CB_CTX_INIT none) 1).gerr = none :=
  have hc := ctx_at_fires_at (fun _ => running_disp) 2
    (primary_all_cb sample_consts Alloc.ok [] 10) (CB_CTX_INIT none)
  have hd := ctx_at_fires_at (fun _ => running_disp) 1
    (read_by_hnd_cb sample_consts 4 [1, 2, 3, 4] true 0) (CB_CTX_INIT none)
  have h1 : 2 ≤ CB_TIMEOUT_S * 10 + 1 := by decide
  have h2 : ∀ k, k < 2 →
      (sample_env_request_failed.ctx_at (CB_CTX_INIT none) k).cb_mutex.locked = true :=
    fun k hk => by
      unfold sample_env_request_failed
      rw [hc.1 k hk]
      rfl
  have h3 : released_by_callback sample_consts
      (sample_env_request_failed.ctx_at (CB_CTX_INIT none) 2) := by
    unfold sample_env_request_failed
    rw [hc.2]
    exact released_by_callback.primary_all Alloc.ok [] 10 (CB_CTX_INIT none) rfl
  have h4 : ∀ k, k ≤ final_index 2 →
      is_event_loop_running (sample_env_request_failed.disp k) = true := fun _ _ => rfl
  have h5 : (sample_env_request_failed.ctx_at (CB_CTX_INIT none) 2).gerr =
      some (g_error_new sample_consts.BL_ERROR_DOMAIN sample_consts.BL_REQUEST_FAIL_ERROR
        " ") := by
    unfold sample_env_request_failed
    rw [hc.2]
    decide
  have h6 : released_by_callback sample_consts
      (sample_env_value_read.ctx_at (CB_CTX_INIT none) 1) := by
    unfold sample_env_value_read
    rw [hd.2]
    exact released_by_callback.read_by_hnd 4 [1, 2, 3, 4] true 0 (CB_CTX_INIT none) rfl
  have h7 : (sample_env_value_read.ctx_at (CB_CTX_INIT none) 1).gerr = none := by
    unfold sample_env_value_read
    rw [hd.2]
    decide
  have ha := C1_wait_for_cb_returns_callback_result sample_consts sample_env_request_failed
    (CB_CTX_INIT none) running_world 2 h1 h2 h3 h4
  have hb := C1_wait_for_cb_returns_callback_result sample_consts sample_env_value_read
    (CB_CTX_INIT none) running_world 1 (by decide)
    (fun k hk => by
      unfold sample_env_value_read
      rw [hd.1 k hk]
      rfl)
    h6 (fun _ _ => rfl)
  ⟨h1, h2, h3, h4, ha.1, ha.2.2.2.2.2 _ h5, hb.2.2.2.2.1, h7⟩

/-- C2, as amended. Let the event loop be found running at the inspections before the
`j`-th and stopped from the `j`-th on, the latch being found held at every
`g_mutex_trylock` made before. When the `j`-th inspection is one of the liveness checks
of the call (`j ≤ CB_TIMEOUT_S * 10 + 1`), `wait_for_cb` returns `BL_DISCONNECTED_ERROR`
without the latch, its whole trace is the `j - 1` sleeps of the rounds before that
check (no sleep follows the first check that reads false), and the connection state is
`STATE_DISCONNECTED` afterwards. When the event loop stops only after the last liveness
check of the polling, the timeout comes first: the call returns `BL_NO_CALLBACK_ERROR`
after `CB_TIMEOUT_S * 10 + 1` sleeps, and the connection state is `STATE_DISCONNECTED`
as well. More generally, every call whose final liveness check reads false returns
`BL_DISCONNECTED_ERROR` and leaves the state `STATE_DISCONNECTED`; in particular the
call that has taken the latch at the attempt `i` and then finds the event loop stopped
at its final check. -/
theorem C2_wait_for_cb_dispatcher_stops (K : bl_consts) (E : Env) (c0 : cb_ctx_t)
    (w : World) (j : Nat)
    (hrun : ∀ k, k < j → is_event_loop_running (E.disp k) = true)
    (hstop : ∀ k, j ≤ k → is_event_loop_running (E.disp k) = false)
    (hlock : ∀ k, k < max j 1 → (E.ctx_at c0 k).cb_mutex.locked = true) :
    (j ≤ CB_TIMEOUT_S * 10 + 1 →
      (wait_for_cb K E c0 w).ret = K.BL_DISCONNECTED_ERROR ∧
      (wait_for_cb K E c0 w).acquired = false ∧
      (wait_for_cb K E c0 w).world.log =
        w.log ++ List.replicate (j - 1) (Event.usleep 100000) ∧
      get_conn_state (wait_for_cb K E c0 w).world = conn_state_t.STATE_DISCONNECTED) ∧
    (CB_TIMEOUT_S * 10 + 1 < j →
      (wait_for_cb K E c0 w).ret = K.BL_NO_CALLBACK_ERROR ∧
      (wait_for_cb K E c0 w).ret ≠ K.BL_DISCONNECTED_ERROR ∧
      (wait_for_cb K E c0 w).acquired = false ∧
      (wait_for_cb K E c0 w).world =
        set_conn_state conn_state_t.STATE_DISCONNECTED
          { slept (CB_TIMEOUT_S * 10 + 1) w with disp := E.disp (CB_TIMEOUT_S * 10 + 2) } ∧
      get_conn_state (wait_for_cb K E c0 w).world = conn_state_t.STATE_DISCONNECTED) ∧
    (∀ (E1 : Env) (c1 : cb_ctx_t) (w1 : World),
      (wait_for_cb K E1 c1 w1).final_check = some false →
        (wait_for_cb K E1 c1 w1).ret = K.BL_DISCONNECTED_ERROR ∧
        get_conn_state (wait_for_cb K E1 c1 w1).world = conn_state_t.STATE_DISCONNECTED) ∧
    (∀ (E1 : Env) (c1 : cb_ctx_t) (w1 : World) (i : Nat), i ≤ CB_TIMEOUT_S * 10 + 1 →
      (∀ k, k < i → (E1.ctx_at c1 k).cb_mutex.locked = true) →
      (E1.ctx_at c1 i).cb_mutex.locked = false →
      (∀ k, k < final_index i → is_event_loop_running (E1.disp k) = true) →
      is_event_loop_running (E1.disp (final_index i)) = false →
        (wait_for_cb K E1 c1 w1).ret = K.BL_DISCONNECTED_ERROR ∧
        (wait_for_cb K E1 c1 w1).acquired = true ∧
        get_conn_state (wait_for_cb K E1 c1 w1).world =
          conn_state_t.STATE_DISCONNECTED) := by
  refine ⟨?_, ?_, ?_, ?_⟩
  · intro hj
    exact (wait_for_cb_stops_disconnected K E c0 w j hj hrun hstop hlock).1
  · intro hj
    rw [wait_for_cb_times_out K E c0 w (fun k hk => hrun k (by omega))
      (fun k hk => hlock k (by omega))]
    refine ⟨rfl, (codes_ne K).2.2.2.2.2.2.2.symm, rfl, rfl, ?_⟩
    exact set_conn_state_conn_state _ _
  · intro E1 c1 w1 hf
    have hs := wait_for_cb_sound K E1 c1 w1
    unfold WaitResult.sound at hs
    rw [hf] at hs
    exact hs
  · intro E1 c1 w1 i hi hheld hfree hrun1 hdead
    rw [wait_for_cb_acquires K E1 c1 w1 i hi hrun1 hheld hfree]
    obtain ⟨h1, h2, -, h4⟩ := wait_for_cb_finish_dead K E1 (final_index i) true
      (latch_taken (E1.ctx_at c1 i)) (slept (i - 1) w1) hdead
    exact ⟨h1, h2, h4⟩

/-- C2, witness: the dispatcher is seen running twice and stopped from then on, the
latch staying held: the wait makes one sleep and reports the disconnection. In a second
wait `write_req_cb` releases the latch, which the wait takes, and the event loop is
found stopped at the final check: the wait reports the disconnection as well. -/
theorem C2_witness :
    (∀ k, k < 2 → is_event_loop_running ((Env.stops_at 2).disp k) = true) ∧
    (∀ k, 2 ≤ k → is_event_loop_running ((Env.stops_at 2).disp k) = false) ∧
    (∀ k, k < max 2 1 →
      ((Env.stops_at 2).ctx_at (CB_CTX_INIT none) k).cb_mutex.locked = true) ∧
    (wait_for_cb sample_consts (Env.stops_at 2) (CB_CTX_INIT none) running_world).ret
      = sample_consts.BL_DISCONNECTED_ERROR ∧
    (wait_for_cb sample_consts (Env.stops_at 2) (CB_CTX_INIT none) running_world).world.log
      = running_world.log ++ List.replicate (2 - 1) (Event.usleep 100000) ∧
    get_conn_state
        (wait_for_cb sample_consts (Env.stops_at 2) (CB_CTX_INIT none) running_world).world
      = conn_state_t.STATE_DISCONNECTED ∧
    (sample_env_late_stop.ctx_at (CB_CTX_INIT none) 2).cb_mutex.locked = false ∧
    (wait_for_cb sample_consts sample_env_late_stop (CB_CTX_INIT none)
      running_world).acquired = true ∧
    (wait_for_cb sample_consts sample_env_late_stop (CB_CTX_INIT none)
      running_world).ret = sample_consts.BL_DISCONNECTED_ERROR :=
  have h2 : ∀ k, k < 2 → is_event_loop_running ((Env.stops_at 2).disp k) = true := by
    intro k hk
    simp [Env.stops_at, hk, is_event_loop_running]
  have h3 : ∀ k, 2 ≤ k → is_event_loop_running ((Env.stops_at 2).disp k) = false := by
    intro k hk
    simp [Env.stops_at, Nat.not_lt.mpr hk, is_event_loop_running]
  have h4 : ∀ k, k < max 2 1 →
      ((Env.stops_at 2).ctx_at (CB_CTX_INIT none) k).cb_mutex.locked = true := by
    intro k _
    rw [ctx_at_stops_at]
    rfl
  have h := C2_wait_for_cb_dispatcher_stops sample_consts (Env.stops_at 2)
    (CB_CTX_INIT none) running_world 2 h2 h3 h4
  have hc := ctx_at_fires_at (fun k => if k < 3 then running_disp else ⟨none, some 1⟩) 2
    (write_req_cb sample_consts 1 0 0) (CB_CTX_INIT none)
  have hfree : (sample_env_late_stop.ctx_at (CB_CTX_INIT none) 2).cb_mutex.locked = false := by
    unfold sample_env_late_stop
    rw [hc.2]
    decide
  have hl := h.2.2.2 sample_env_late_stop (CB_CTX_INIT none) running_world 2 (by decide)
    (fun k hk => by
      unfold sample_env_late_stop
      rw [hc.1 k hk]
      rfl)
    hfree
    (fun k hk => by
      have hk3 : k < 3 := hk
      simp [sample_env_late_stop, Env.fires_at, hk3, is_event_loop_running, running_disp])
    (by decide)
  have ha := h.1 (by decide)
  ⟨h2, h3, h4, ha.1, ha.2.2.1, ha.2.2.2, hfree, hl.2.1, hl.1⟩

/-- C2, counterexample to the claim as stated. The latch of a fresh context stays held
and the event loop is found running at the `CB_TIMEOUT_S * 10 + 2 = 1202` liveness
checks of the call and stopped from the next inspection on: it has stopped during the
last sleep, before any latch acquisition. `wait_for_cb` returns `BL_NO_CALLBACK_ERROR`,
not `BL_DISCONNECTED_ERROR`, after 1201 sleeps. -/
theorem C2_counterexample :
    (∀ k, k < CB_TIMEOUT_S * 10 + 2 →
      is_event_loop_running ((Env.stops_at (CB_TIMEOUT_S * 10 + 2)).disp k) = true) ∧
    (∀ k, CB_TIMEOUT_S * 10 + 2 ≤ k →
      is_event_loop_running ((Env.stops_at (CB_TIMEOUT_S * 10 + 2)).disp k) = false) ∧
    (∀ k, ((Env.stops_at (CB_TIMEOUT_S * 10 + 2)).ctx_at (CB_CTX_INIT none)
      k).cb_mutex.locked = true) ∧
    (wait_for_cb sample_consts (Env.stops_at (CB_TIMEOUT_S * 10 + 2)) (CB_CTX_INIT none)
      running_world).ret = sample_consts.BL_NO_CALLBACK_ERROR ∧
    (wait_for_cb sample_consts (Env.stops_at (CB_TIMEOUT_S * 10 + 2)) (CB_CTX_INIT none)
      running_world).ret ≠ sample_consts.BL_DISCONNECTED_ERROR ∧
    (wait_for_cb sample_consts (Env.stops_at (CB_TIMEOUT_S * 10 + 2)) (CB_CTX_INIT none)
      running_world).world.log = List.replicate 1201 (Event.usleep 100000) := by
  have h1 : ∀ k, k < CB_TIMEOUT_S * 10 + 2 →
      is_event_loop_running ((Env.stops_at (CB_TIMEOUT_S * 10 + 2)).disp k) = true := by
    intro k hk
    simp [Env.stops_at, hk, is_event_loop_running]
  have h2 : ∀ k, CB_TIMEOUT_S * 10 + 2 ≤ k →
      is_event_loop_running ((Env.stops_at (CB_TIMEOUT_S * 10 + 2)).disp k) = false := by
    intro k hk
    simp [Env.stops_at, Nat.not_lt.mpr hk, is_event_loop_running]
  have h3 : ∀ k, ((Env.stops_at (CB_TIMEOUT_S * 10 + 2)).ctx_at (CB_CTX_INIT none)
      k).cb_mutex.locked = true := by
    intro k
    rw [ctx_at_stops_at]
    rfl
  have hw := wait_for_cb_times_out sample_consts (Env.stops_at (CB_TIMEOUT_S * 10 + 2))
    (CB_CTX_INIT none) running_world (fun k hk => h1 k (by omega)) (fun k _ => h3 k)
  refine ⟨h1, h2, h3, ?_, ?_, ?_⟩
  · rw [hw]
    rfl
  · rw [hw]
    decide
  · rw [hw]
    unfold wait_for_cb_timeout
    dsimp only
    rw [set_conn_state_not_running _ _ (h2 _ (le_refl _))]
    rfl

end BlueLib
